import Mathlib

/-!
Shallow Lean embedding of the New York heat-pump savings model
(reports/ny_aeba_savings/model.py).

Numeric columns are modelled as real numbers.  Each pipeline stage is a
function from the previous stage's list of rows to the next stage's list;
configuration data that the Python code loads from YAML files is passed
explicitly through a `Config` record, since the stages only ever consume the
loaded values.  Scenario overrides follow the source's `_apply_overrides`:
per (fuel, zone) key, each named column that is present in the table is
rewritten on matching rows.  Left joins against zone-keyed aggregate tables
(whose keys are distinct by construction) are modelled as per-row lookups
with a 0 default for the fill_null cases.
-/

namespace NyAeba

noncomputable section

/-- Scenario overrides: (fuel, zone) keys mapping column names to values
(the `Overrides` type alias of the source). -/
abbrev Overrides := List ((String × String) × List (String × ℝ))

/-- One zone's record from building_params.yaml. -/
structure BuildingParams where
  zone : String
  floor_area_sf : ℝ
  stories : ℝ
  wall_height_ft : ℝ
  window_door_pct : ℝ
  above_grade_basement_wall_height_ft : ℝ
  below_grade_basement_wall_height_ft : ℝ
  r_attic : ℝ
  r_walls : ℝ
  r_windows_doors : ℝ
  r_basement_wall : ℝ
  ach50 : ℝ
  slab_f_factor : ℝ
  hdd : ℝ
  furnace_electrical_usage_kwh_per_mmbtu : ℝ
deriving Inhabited

/-- Financial/analysis scalars from model_params.yaml. -/
structure ModelParams where
  mortgage_rate : ℝ
  mortgage_term_years : ℝ
  discount_rate : ℝ
  analysis_period_years : ℝ
  indoor_design_temp_f : ℝ
  sizing_scale_up_factor : ℝ
  internal_heat_gains_btu : ℝ
  epa_hdd_adjustment : ℝ
  propane_tank_cost : ℝ
  ny_geo_tax_credit_rate : ℝ
  ny_geo_tax_credit_cap : ℝ
  federal_25d_rate : ℝ
deriving Inhabited

/-- Maintenance, efficiency and fuel-content scalars from operating_params.yaml. -/
structure OperatingParams where
  furnace_afue : ℝ
  ccashp_hspf2 : ℝ
  gshp_cop : ℝ
  maintenance_furnace : ℝ
  maintenance_ac : ℝ
  maintenance_gas_water_heater : ℝ
  maintenance_ccashp : ℝ
  maintenance_gshp : ℝ
  maintenance_hpwh : ℝ
  natural_gas_btu_per_mcf : ℝ
  propane_btu_per_gallon : ℝ
  hpwh_daily_kwh : ℝ
  gwh_fuel_usage_rate_nat_gas : ℝ
  gwh_fuel_usage_rate_propane : ℝ
  gwh_daily_operating_hours : ℝ
deriving Inhabited

/-- Winter-average fuel prices as load_fuel_prices returns them: electricity in
cents/kWh, natural gas in dollars/mcf, propane in cents/gallon. -/
structure FuelPrices where
  electricity_cents : ℝ
  natural_gas_dollars : ℝ
  propane_cents : ℝ
deriving Inhabited

/-- One county record from counties.yaml (fields the model reads). -/
structure County where
  electric_utility : String
  gas_utility : Option String
  zone : String
  design_temp_f : ℝ
  new_construction_share : ℝ
deriving Inhabited

/-- One utility rebate record from utility_rebates.yaml. -/
structure RebateRec where
  utility : String
  technology : String
  project_type : String
  unit : String
  amount : ℝ
  cap : Option ℝ
deriving Inhabited

/-- One gas-utility service-line cost record from service_line_costs.yaml. -/
structure ServiceLineRec where
  gas_utility : String
  avg_service_line_cost : ℝ
deriving Inhabited

/-- One heating-survey record: a system type with per-zone respondent counts. -/
structure SurveyRow where
  system_type : String
  zone_4_count : ℝ
  zone_5_count : ℝ
  zone_6_count : ℝ
deriving Inhabited

/-- Average installed prices extracted from equipment.yaml, including the two
ccASHP zone tiers and the GSHP tonnage parsed from its size field. -/
structure EquipmentPrices where
  furnace : ℝ
  ac : ℝ
  gas_water_heater : ℝ
  hpwh : ℝ
  ccashp_zone4 : ℝ
  ccashp_zone56 : ℝ
  gshp : ℝ
  gshp_tons : ℝ
deriving Inhabited

/-- All loaded configuration the pipeline consumes. -/
structure Config where
  building : List BuildingParams
  params : ModelParams
  op : OperatingParams
  prices : FuelPrices
  counties : List County
  rebates : List RebateRec
  serviceLines : List ServiceLineRec
  survey : List SurveyRow
  equip : EquipmentPrices

/-- The two fuels of the scenario cross product. -/
def fuelsL : List String := ["natural_gas", "propane"]

/-- The three climate zones of the scenario cross product. -/
def zonesL : List String := ["4", "5", "6"]

/-- The two heat-pump technologies of the scenario cross product. -/
def techsL : List String := ["ccASHP", "GSHP"]

/-- First-occurrence list of distinct keys, as a group_by produces one output
row per distinct key. -/
def distinctKeys (l : List String) : List String :=
  l.foldl (fun acc z => if z ∈ acc then acc else acc ++ [z]) []

/-- Lookup in a (key, value) table with a 0 default (join + fill_null(0)). -/
def lookupD (l : List (String × ℝ)) (k : String) : ℝ :=
  match l.find? (fun p => p.1 = k) with
  | some p => p.2
  | none => 0

/-- Weighted-average coldest-day design temperature per zone, weighting each
county by its new-construction share normalized within the zone. -/
def _compute_zone_design_temps (cfg : Config) : List (String × ℝ) :=
  (distinctKeys (cfg.counties.map (fun c => c.zone))).map fun z =>
    let zc := cfg.counties.filter (fun c => c.zone = z)
    let tot := (zc.map (fun c => c.new_construction_share)).sum
    (z, (zc.map (fun c => c.design_temp_f * (c.new_construction_share / tot))).sum)

/-- Blended average gas service line cost per zone: counties with gas service,
left-joined to the per-utility cost table (a county with no cost record
contributes nothing to the sum, as a null product is skipped), weighted by
new-construction share normalized within the zone. -/
def _compute_zone_service_line_costs (cfg : Config) : List (String × ℝ) :=
  let gc := cfg.counties.filter (fun c => c.gas_utility.isSome)
  (distinctKeys (gc.map (fun c => c.zone))).map fun z =>
    let zc := gc.filter (fun c => c.zone = z)
    let tot := (zc.map (fun c => c.new_construction_share)).sum
    (z, (zc.map (fun c =>
        match cfg.serviceLines.find? (fun s => some s.gas_utility = c.gas_utility) with
        | some s => s.avg_service_line_cost * (c.new_construction_share / tot)
        | none => 0)).sum)

/-- Blended average HPWH rebate per zone: counties joined to HPWH rebates by
electric utility (fill_null 0), weighted by normalized new-construction share. -/
def _compute_zone_hpwh_rebates (cfg : Config) : List (String × ℝ) :=
  let hr := (cfg.rebates.filter (fun r => r.technology = "HPWH")).map
    (fun r => (r.utility, r.amount))
  (distinctKeys (cfg.counties.map (fun c => c.zone))).map fun z =>
    let zc := cfg.counties.filter (fun c => c.zone = z)
    let tot := (zc.map (fun c => c.new_construction_share)).sum
    (z, (zc.map (fun c =>
        lookupD hr c.electric_utility * (c.new_construction_share / tot))).sum)

/-- Blended average GSHP new-construction rebate per zone.  Per-ton amounts are
converted to per-project amounts with the system tonnage and capped at the
rebate's stated cap (absent cap behaves as infinity) before blending. -/
def _compute_zone_gshp_rebates (cfg : Config) : List (String × ℝ) :=
  let tons := cfg.equip.gshp_tons
  let gr := (cfg.rebates.filter
      (fun r => r.technology = "GSHP" ∧ r.project_type = "new_construction")).map
    (fun r => (r.utility,
      if r.unit = "$/ton" then
        match r.cap with
        | some cp => min (r.amount * tons) cp
        | none => r.amount * tons
      else r.amount))
  (distinctKeys (cfg.counties.map (fun c => c.zone))).map fun z =>
    let zc := cfg.counties.filter (fun c => c.zone = z)
    let tot := (zc.map (fun c => c.new_construction_share)).sum
    (z, (zc.map (fun c =>
        lookupD gr c.electric_utility * (c.new_construction_share / tot))).sum)

/-- One scenario row after `build_scenario_table`: identifiers plus every
joined building, financial, operating and fuel-price parameter column. -/
structure ScenRow where
  fuel : String
  zone : String
  hp_technology : String
  floor_area_sf : ℝ
  stories : ℝ
  wall_height_ft : ℝ
  window_door_pct : ℝ
  above_grade_basement_wall_height_ft : ℝ
  below_grade_basement_wall_height_ft : ℝ
  r_attic : ℝ
  r_walls : ℝ
  r_windows_doors : ℝ
  r_basement_wall : ℝ
  ach50 : ℝ
  slab_f_factor : ℝ
  hdd : ℝ
  furnace_electrical_usage_kwh_per_mmbtu : ℝ
  mortgage_rate : ℝ
  mortgage_term_years : ℝ
  discount_rate : ℝ
  analysis_period_years : ℝ
  indoor_design_temp_f : ℝ
  sizing_scale_up_factor : ℝ
  internal_heat_gains_btu : ℝ
  epa_hdd_adjustment : ℝ
  propane_tank_cost : ℝ
  ny_geo_tax_credit_rate : ℝ
  ny_geo_tax_credit_cap : ℝ
  federal_25d_rate : ℝ
  furnace_afue : ℝ
  ccashp_hspf2 : ℝ
  gshp_cop : ℝ
  furnace_maintenance_cost : ℝ
  ac_maintenance_cost : ℝ
  gwh_maintenance_cost : ℝ
  ccashp_maintenance_cost : ℝ
  gshp_maintenance_cost : ℝ
  hpwh_maintenance_cost : ℝ
  natural_gas_btu_per_mcf : ℝ
  propane_btu_per_gallon : ℝ
  hpwh_daily_kwh : ℝ
  gwh_fuel_usage_rate : ℝ
  gwh_daily_operating_hours : ℝ
  electricity_price : ℝ
  fuel_price : ℝ
deriving Inhabited

/-- Row after the building-geometry stage (Excel rows 12-24). -/
structure GeomRow extends ScenRow where
  wall_length_ft : ℝ
  wall_surface_area_sf : ℝ
  attic_floor_area_sf : ℝ
  wall_area_excl_windows_sf : ℝ
  window_door_area_sf : ℝ
  above_grade_basement_wall_area_sf : ℝ
  below_grade_basement_wall_area_sf : ℝ
  basement_floor_perimeter_ft : ℝ
  volume_cf : ℝ
deriving Inhabited

/-- Row after the heat-loss stage (Excel rows 33-40). -/
structure HeatLossRow extends GeomRow where
  heat_loss_attic : ℝ
  heat_loss_walls : ℝ
  heat_loss_windows_doors : ℝ
  heat_loss_above_grade_basement : ℝ
  heat_loss_air_changes : ℝ
  heat_loss_below_grade_basement : ℝ
  heat_loss_slab : ℝ
  total_heat_loss_rate : ℝ
deriving Inhabited

/-- Row after the yearly-BTU stage (Excel rows 43-46). -/
structure BtuRow extends HeatLossRow where
  adjusted_hdd : ℝ
  yearly_btu : ℝ
deriving Inhabited

/-- Row after the system-sizing stage (Excel rows 49-55). -/
structure SizingRow extends BtuRow where
  coldest_day_temp_f : ℝ
  degree_diff_coldest_day : ℝ
  btu_hr_coldest_day : ℝ
  system_capacity_btu_hr : ℝ
deriving Inhabited

/-- Row after the baseline-cost stage (Excel rows 59-96). -/
structure BaselineRow extends SizingRow where
  furnace_equipment_cost : ℝ
  gas_tank_cost : ℝ
  furnace_installed_cost : ℝ
  furnace_yearly_fuel_usage : ℝ
  furnace_yearly_fuel_cost : ℝ
  furnace_yearly_electrical_kwh : ℝ
  furnace_yearly_electrical_cost : ℝ
  furnace_yearly_operating_cost : ℝ
  ac_equipment_cost : ℝ
  ac_yearly_operating_cost : ℝ
  gwh_equipment_cost : ℝ
  gwh_yearly_fuel_usage : ℝ
  gwh_yearly_fuel_cost : ℝ
  gwh_yearly_operating_cost : ℝ
  service_line_cost : ℝ
  baseline_equipment_total : ℝ
  baseline_equipment_with_service_line : ℝ
  baseline_yearly_operating : ℝ
deriving Inhabited

/-- Row after the heat-pump-cost stage (Excel rows 100-123). -/
structure HpRow extends BaselineRow where
  ccashp_equipment_cost : ℝ
  ccashp_rebate : ℝ
  ccashp_federal_tax_credit : ℝ
  ccashp_net_cost : ℝ
  ccashp_yearly_kwh : ℝ
  ccashp_yearly_electrical_cost : ℝ
  ccashp_yearly_operating_cost : ℝ
  gshp_rebate : ℝ
  gshp_equipment_cost : ℝ
  gshp_ny_tax_credit : ℝ
  gshp_federal_tax_credit : ℝ
  gshp_net_cost : ℝ
  gshp_yearly_kwh : ℝ
  gshp_yearly_electrical_cost : ℝ
  gshp_yearly_operating_cost : ℝ
  hpwh_rebate : ℝ
  hpwh_device_cost : ℝ
  hpwh_net_cost : ℝ
  hpwh_yearly_kwh : ℝ
  hpwh_yearly_electrical_cost : ℝ
  hpwh_yearly_operating_cost : ℝ
  hp_equipment_total : ℝ
  hp_yearly_operating_total : ℝ
deriving Inhabited

/-- Column names present in the scenario table, mirroring df.columns at the point where build_scenario_table applies overrides. -/
def scenCols : List String :=
  ["fuel",
   "zone",
   "hp_technology",
   "floor_area_sf",
   "stories",
   "wall_height_ft",
   "window_door_pct",
   "above_grade_basement_wall_height_ft",
   "below_grade_basement_wall_height_ft",
   "r_attic",
   "r_walls",
   "r_windows_doors",
   "r_basement_wall",
   "ach50",
   "slab_f_factor",
   "hdd",
   "furnace_electrical_usage_kwh_per_mmbtu",
   "mortgage_rate",
   "mortgage_term_years",
   "discount_rate",
   "analysis_period_years",
   "indoor_design_temp_f",
   "sizing_scale_up_factor",
   "internal_heat_gains_btu",
   "epa_hdd_adjustment",
   "propane_tank_cost",
   "ny_geo_tax_credit_rate",
   "ny_geo_tax_credit_cap",
   "federal_25d_rate",
   "furnace_afue",
   "ccashp_hspf2",
   "gshp_cop",
   "furnace_maintenance_cost",
   "ac_maintenance_cost",
   "gwh_maintenance_cost",
   "ccashp_maintenance_cost",
   "gshp_maintenance_cost",
   "hpwh_maintenance_cost",
   "natural_gas_btu_per_mcf",
   "propane_btu_per_gallon",
   "hpwh_daily_kwh",
   "gwh_fuel_usage_rate",
   "gwh_daily_operating_hours",
   "electricity_price",
   "fuel_price"]

/-- Column names present after compute_heat_pump_costs, mirroring df.columns at the point where compute_savings re-applies overrides. -/
def hpCols : List String :=
  ["fuel",
   "zone",
   "hp_technology",
   "floor_area_sf",
   "stories",
   "wall_height_ft",
   "window_door_pct",
   "above_grade_basement_wall_height_ft",
   "below_grade_basement_wall_height_ft",
   "r_attic",
   "r_walls",
   "r_windows_doors",
   "r_basement_wall",
   "ach50",
   "slab_f_factor",
   "hdd",
   "furnace_electrical_usage_kwh_per_mmbtu",
   "mortgage_rate",
   "mortgage_term_years",
   "discount_rate",
   "analysis_period_years",
   "indoor_design_temp_f",
   "sizing_scale_up_factor",
   "internal_heat_gains_btu",
   "epa_hdd_adjustment",
   "propane_tank_cost",
   "ny_geo_tax_credit_rate",
   "ny_geo_tax_credit_cap",
   "federal_25d_rate",
   "furnace_afue",
   "ccashp_hspf2",
   "gshp_cop",
   "furnace_maintenance_cost",
   "ac_maintenance_cost",
   "gwh_maintenance_cost",
   "ccashp_maintenance_cost",
   "gshp_maintenance_cost",
   "hpwh_maintenance_cost",
   "natural_gas_btu_per_mcf",
   "propane_btu_per_gallon",
   "hpwh_daily_kwh",
   "gwh_fuel_usage_rate",
   "gwh_daily_operating_hours",
   "electricity_price",
   "fuel_price",
   "wall_length_ft",
   "wall_surface_area_sf",
   "attic_floor_area_sf",
   "wall_area_excl_windows_sf",
   "window_door_area_sf",
   "above_grade_basement_wall_area_sf",
   "below_grade_basement_wall_area_sf",
   "basement_floor_perimeter_ft",
   "volume_cf",
   "heat_loss_attic",
   "heat_loss_walls",
   "heat_loss_windows_doors",
   "heat_loss_above_grade_basement",
   "heat_loss_air_changes",
   "heat_loss_below_grade_basement",
   "heat_loss_slab",
   "total_heat_loss_rate",
   "adjusted_hdd",
   "yearly_btu",
   "coldest_day_temp_f",
   "degree_diff_coldest_day",
   "btu_hr_coldest_day",
   "system_capacity_btu_hr",
   "furnace_equipment_cost",
   "gas_tank_cost",
   "furnace_installed_cost",
   "furnace_yearly_fuel_usage",
   "furnace_yearly_fuel_cost",
   "furnace_yearly_electrical_kwh",
   "furnace_yearly_electrical_cost",
   "furnace_yearly_operating_cost",
   "ac_equipment_cost",
   "ac_yearly_operating_cost",
   "gwh_equipment_cost",
   "gwh_yearly_fuel_usage",
   "gwh_yearly_fuel_cost",
   "gwh_yearly_operating_cost",
   "service_line_cost",
   "baseline_equipment_total",
   "baseline_equipment_with_service_line",
   "baseline_yearly_operating",
   "ccashp_equipment_cost",
   "ccashp_rebate",
   "ccashp_federal_tax_credit",
   "ccashp_net_cost",
   "ccashp_yearly_kwh",
   "ccashp_yearly_electrical_cost",
   "ccashp_yearly_operating_cost",
   "gshp_rebate",
   "gshp_equipment_cost",
   "gshp_ny_tax_credit",
   "gshp_federal_tax_credit",
   "gshp_net_cost",
   "gshp_yearly_kwh",
   "gshp_yearly_electrical_cost",
   "gshp_yearly_operating_cost",
   "hpwh_rebate",
   "hpwh_device_cost",
   "hpwh_net_cost",
   "hpwh_yearly_kwh",
   "hpwh_yearly_electrical_cost",
   "hpwh_yearly_operating_cost",
   "hp_equipment_total",
   "hp_yearly_operating_total"]

/-- Write value `v` into the named numeric column of a `ScenRow`; names that
are not numeric columns of this row type leave the row unchanged.  Stated as a
parallel conditional rebuild: exactly the named column is replaced. -/
def ScenRow.setCol (c : String) (v : ℝ) (r : ScenRow) : ScenRow :=
  { r with
    floor_area_sf := if c = "floor_area_sf" then v else r.floor_area_sf
    stories := if c = "stories" then v else r.stories
    wall_height_ft := if c = "wall_height_ft" then v else r.wall_height_ft
    window_door_pct := if c = "window_door_pct" then v else r.window_door_pct
    above_grade_basement_wall_height_ft := if c = "above_grade_basement_wall_height_ft" then v else r.above_grade_basement_wall_height_ft
    below_grade_basement_wall_height_ft := if c = "below_grade_basement_wall_height_ft" then v else r.below_grade_basement_wall_height_ft
    r_attic := if c = "r_attic" then v else r.r_attic
    r_walls := if c = "r_walls" then v else r.r_walls
    r_windows_doors := if c = "r_windows_doors" then v else r.r_windows_doors
    r_basement_wall := if c = "r_basement_wall" then v else r.r_basement_wall
    ach50 := if c = "ach50" then v else r.ach50
    slab_f_factor := if c = "slab_f_factor" then v else r.slab_f_factor
    hdd := if c = "hdd" then v else r.hdd
    furnace_electrical_usage_kwh_per_mmbtu := if c = "furnace_electrical_usage_kwh_per_mmbtu" then v else r.furnace_electrical_usage_kwh_per_mmbtu
    mortgage_rate := if c = "mortgage_rate" then v else r.mortgage_rate
    mortgage_term_years := if c = "mortgage_term_years" then v else r.mortgage_term_years
    discount_rate := if c = "discount_rate" then v else r.discount_rate
    analysis_period_years := if c = "analysis_period_years" then v else r.analysis_period_years
    indoor_design_temp_f := if c = "indoor_design_temp_f" then v else r.indoor_design_temp_f
    sizing_scale_up_factor := if c = "sizing_scale_up_factor" then v else r.sizing_scale_up_factor
    internal_heat_gains_btu := if c = "internal_heat_gains_btu" then v else r.internal_heat_gains_btu
    epa_hdd_adjustment := if c = "epa_hdd_adjustment" then v else r.epa_hdd_adjustment
    propane_tank_cost := if c = "propane_tank_cost" then v else r.propane_tank_cost
    ny_geo_tax_credit_rate := if c = "ny_geo_tax_credit_rate" then v else r.ny_geo_tax_credit_rate
    ny_geo_tax_credit_cap := if c = "ny_geo_tax_credit_cap" then v else r.ny_geo_tax_credit_cap
    federal_25d_rate := if c = "federal_25d_rate" then v else r.federal_25d_rate
    furnace_afue := if c = "furnace_afue" then v else r.furnace_afue
    ccashp_hspf2 := if c = "ccashp_hspf2" then v else r.ccashp_hspf2
    gshp_cop := if c = "gshp_cop" then v else r.gshp_cop
    furnace_maintenance_cost := if c = "furnace_maintenance_cost" then v else r.furnace_maintenance_cost
    ac_maintenance_cost := if c = "ac_maintenance_cost" then v else r.ac_maintenance_cost
    gwh_maintenance_cost := if c = "gwh_maintenance_cost" then v else r.gwh_maintenance_cost
    ccashp_maintenance_cost := if c = "ccashp_maintenance_cost" then v else r.ccashp_maintenance_cost
    gshp_maintenance_cost := if c = "gshp_maintenance_cost" then v else r.gshp_maintenance_cost
    hpwh_maintenance_cost := if c = "hpwh_maintenance_cost" then v else r.hpwh_maintenance_cost
    natural_gas_btu_per_mcf := if c = "natural_gas_btu_per_mcf" then v else r.natural_gas_btu_per_mcf
    propane_btu_per_gallon := if c = "propane_btu_per_gallon" then v else r.propane_btu_per_gallon
    hpwh_daily_kwh := if c = "hpwh_daily_kwh" then v else r.hpwh_daily_kwh
    gwh_fuel_usage_rate := if c = "gwh_fuel_usage_rate" then v else r.gwh_fuel_usage_rate
    gwh_daily_operating_hours := if c = "gwh_daily_operating_hours" then v else r.gwh_daily_operating_hours
    electricity_price := if c = "electricity_price" then v else r.electricity_price
    fuel_price := if c = "fuel_price" then v else r.fuel_price
  }

/-- Write value `v` into the named numeric column of a `HpRow`; names that
are not numeric columns of this row type leave the row unchanged.  Stated as a
parallel conditional rebuild: exactly the named column is replaced. -/
def HpRow.setCol (c : String) (v : ℝ) (r : HpRow) : HpRow :=
  { r with
    floor_area_sf := if c = "floor_area_sf" then v else r.floor_area_sf
    stories := if c = "stories" then v else r.stories
    wall_height_ft := if c = "wall_height_ft" then v else r.wall_height_ft
    window_door_pct := if c = "window_door_pct" then v else r.window_door_pct
    above_grade_basement_wall_height_ft := if c = "above_grade_basement_wall_height_ft" then v else r.above_grade_basement_wall_height_ft
    below_grade_basement_wall_height_ft := if c = "below_grade_basement_wall_height_ft" then v else r.below_grade_basement_wall_height_ft
    r_attic := if c = "r_attic" then v else r.r_attic
    r_walls := if c = "r_walls" then v else r.r_walls
    r_windows_doors := if c = "r_windows_doors" then v else r.r_windows_doors
    r_basement_wall := if c = "r_basement_wall" then v else r.r_basement_wall
    ach50 := if c = "ach50" then v else r.ach50
    slab_f_factor := if c = "slab_f_factor" then v else r.slab_f_factor
    hdd := if c = "hdd" then v else r.hdd
    furnace_electrical_usage_kwh_per_mmbtu := if c = "furnace_electrical_usage_kwh_per_mmbtu" then v else r.furnace_electrical_usage_kwh_per_mmbtu
    mortgage_rate := if c = "mortgage_rate" then v else r.mortgage_rate
    mortgage_term_years := if c = "mortgage_term_years" then v else r.mortgage_term_years
    discount_rate := if c = "discount_rate" then v else r.discount_rate
    analysis_period_years := if c = "analysis_period_years" then v else r.analysis_period_years
    indoor_design_temp_f := if c = "indoor_design_temp_f" then v else r.indoor_design_temp_f
    sizing_scale_up_factor := if c = "sizing_scale_up_factor" then v else r.sizing_scale_up_factor
    internal_heat_gains_btu := if c = "internal_heat_gains_btu" then v else r.internal_heat_gains_btu
    epa_hdd_adjustment := if c = "epa_hdd_adjustment" then v else r.epa_hdd_adjustment
    propane_tank_cost := if c = "propane_tank_cost" then v else r.propane_tank_cost
    ny_geo_tax_credit_rate := if c = "ny_geo_tax_credit_rate" then v else r.ny_geo_tax_credit_rate
    ny_geo_tax_credit_cap := if c = "ny_geo_tax_credit_cap" then v else r.ny_geo_tax_credit_cap
    federal_25d_rate := if c = "federal_25d_rate" then v else r.federal_25d_rate
    furnace_afue := if c = "furnace_afue" then v else r.furnace_afue
    ccashp_hspf2 := if c = "ccashp_hspf2" then v else r.ccashp_hspf2
    gshp_cop := if c = "gshp_cop" then v else r.gshp_cop
    furnace_maintenance_cost := if c = "furnace_maintenance_cost" then v else r.furnace_maintenance_cost
    ac_maintenance_cost := if c = "ac_maintenance_cost" then v else r.ac_maintenance_cost
    gwh_maintenance_cost := if c = "gwh_maintenance_cost" then v else r.gwh_maintenance_cost
    ccashp_maintenance_cost := if c = "ccashp_maintenance_cost" then v else r.ccashp_maintenance_cost
    gshp_maintenance_cost := if c = "gshp_maintenance_cost" then v else r.gshp_maintenance_cost
    hpwh_maintenance_cost := if c = "hpwh_maintenance_cost" then v else r.hpwh_maintenance_cost
    natural_gas_btu_per_mcf := if c = "natural_gas_btu_per_mcf" then v else r.natural_gas_btu_per_mcf
    propane_btu_per_gallon := if c = "propane_btu_per_gallon" then v else r.propane_btu_per_gallon
    hpwh_daily_kwh := if c = "hpwh_daily_kwh" then v else r.hpwh_daily_kwh
    gwh_fuel_usage_rate := if c = "gwh_fuel_usage_rate" then v else r.gwh_fuel_usage_rate
    gwh_daily_operating_hours := if c = "gwh_daily_operating_hours" then v else r.gwh_daily_operating_hours
    electricity_price := if c = "electricity_price" then v else r.electricity_price
    fuel_price := if c = "fuel_price" then v else r.fuel_price
    wall_length_ft := if c = "wall_length_ft" then v else r.wall_length_ft
    wall_surface_area_sf := if c = "wall_surface_area_sf" then v else r.wall_surface_area_sf
    attic_floor_area_sf := if c = "attic_floor_area_sf" then v else r.attic_floor_area_sf
    wall_area_excl_windows_sf := if c = "wall_area_excl_windows_sf" then v else r.wall_area_excl_windows_sf
    window_door_area_sf := if c = "window_door_area_sf" then v else r.window_door_area_sf
    above_grade_basement_wall_area_sf := if c = "above_grade_basement_wall_area_sf" then v else r.above_grade_basement_wall_area_sf
    below_grade_basement_wall_area_sf := if c = "below_grade_basement_wall_area_sf" then v else r.below_grade_basement_wall_area_sf
    basement_floor_perimeter_ft := if c = "basement_floor_perimeter_ft" then v else r.basement_floor_perimeter_ft
    volume_cf := if c = "volume_cf" then v else r.volume_cf
    heat_loss_attic := if c = "heat_loss_attic" then v else r.heat_loss_attic
    heat_loss_walls := if c = "heat_loss_walls" then v else r.heat_loss_walls
    heat_loss_windows_doors := if c = "heat_loss_windows_doors" then v else r.heat_loss_windows_doors
    heat_loss_above_grade_basement := if c = "heat_loss_above_grade_basement" then v else r.heat_loss_above_grade_basement
    heat_loss_air_changes := if c = "heat_loss_air_changes" then v else r.heat_loss_air_changes
    heat_loss_below_grade_basement := if c = "heat_loss_below_grade_basement" then v else r.heat_loss_below_grade_basement
    heat_loss_slab := if c = "heat_loss_slab" then v else r.heat_loss_slab
    total_heat_loss_rate := if c = "total_heat_loss_rate" then v else r.total_heat_loss_rate
    adjusted_hdd := if c = "adjusted_hdd" then v else r.adjusted_hdd
    yearly_btu := if c = "yearly_btu" then v else r.yearly_btu
    coldest_day_temp_f := if c = "coldest_day_temp_f" then v else r.coldest_day_temp_f
    degree_diff_coldest_day := if c = "degree_diff_coldest_day" then v else r.degree_diff_coldest_day
    btu_hr_coldest_day := if c = "btu_hr_coldest_day" then v else r.btu_hr_coldest_day
    system_capacity_btu_hr := if c = "system_capacity_btu_hr" then v else r.system_capacity_btu_hr
    furnace_equipment_cost := if c = "furnace_equipment_cost" then v else r.furnace_equipment_cost
    gas_tank_cost := if c = "gas_tank_cost" then v else r.gas_tank_cost
    furnace_installed_cost := if c = "furnace_installed_cost" then v else r.furnace_installed_cost
    furnace_yearly_fuel_usage := if c = "furnace_yearly_fuel_usage" then v else r.furnace_yearly_fuel_usage
    furnace_yearly_fuel_cost := if c = "furnace_yearly_fuel_cost" then v else r.furnace_yearly_fuel_cost
    furnace_yearly_electrical_kwh := if c = "furnace_yearly_electrical_kwh" then v else r.furnace_yearly_electrical_kwh
    furnace_yearly_electrical_cost := if c = "furnace_yearly_electrical_cost" then v else r.furnace_yearly_electrical_cost
    furnace_yearly_operating_cost := if c = "furnace_yearly_operating_cost" then v else r.furnace_yearly_operating_cost
    ac_equipment_cost := if c = "ac_equipment_cost" then v else r.ac_equipment_cost
    ac_yearly_operating_cost := if c = "ac_yearly_operating_cost" then v else r.ac_yearly_operating_cost
    gwh_equipment_cost := if c = "gwh_equipment_cost" then v else r.gwh_equipment_cost
    gwh_yearly_fuel_usage := if c = "gwh_yearly_fuel_usage" then v else r.gwh_yearly_fuel_usage
    gwh_yearly_fuel_cost := if c = "gwh_yearly_fuel_cost" then v else r.gwh_yearly_fuel_cost
    gwh_yearly_operating_cost := if c = "gwh_yearly_operating_cost" then v else r.gwh_yearly_operating_cost
    service_line_cost := if c = "service_line_cost" then v else r.service_line_cost
    baseline_equipment_total := if c = "baseline_equipment_total" then v else r.baseline_equipment_total
    baseline_equipment_with_service_line := if c = "baseline_equipment_with_service_line" then v else r.baseline_equipment_with_service_line
    baseline_yearly_operating := if c = "baseline_yearly_operating" then v else r.baseline_yearly_operating
    ccashp_equipment_cost := if c = "ccashp_equipment_cost" then v else r.ccashp_equipment_cost
    ccashp_rebate := if c = "ccashp_rebate" then v else r.ccashp_rebate
    ccashp_federal_tax_credit := if c = "ccashp_federal_tax_credit" then v else r.ccashp_federal_tax_credit
    ccashp_net_cost := if c = "ccashp_net_cost" then v else r.ccashp_net_cost
    ccashp_yearly_kwh := if c = "ccashp_yearly_kwh" then v else r.ccashp_yearly_kwh
    ccashp_yearly_electrical_cost := if c = "ccashp_yearly_electrical_cost" then v else r.ccashp_yearly_electrical_cost
    ccashp_yearly_operating_cost := if c = "ccashp_yearly_operating_cost" then v else r.ccashp_yearly_operating_cost
    gshp_rebate := if c = "gshp_rebate" then v else r.gshp_rebate
    gshp_equipment_cost := if c = "gshp_equipment_cost" then v else r.gshp_equipment_cost
    gshp_ny_tax_credit := if c = "gshp_ny_tax_credit" then v else r.gshp_ny_tax_credit
    gshp_federal_tax_credit := if c = "gshp_federal_tax_credit" then v else r.gshp_federal_tax_credit
    gshp_net_cost := if c = "gshp_net_cost" then v else r.gshp_net_cost
    gshp_yearly_kwh := if c = "gshp_yearly_kwh" then v else r.gshp_yearly_kwh
    gshp_yearly_electrical_cost := if c = "gshp_yearly_electrical_cost" then v else r.gshp_yearly_electrical_cost
    gshp_yearly_operating_cost := if c = "gshp_yearly_operating_cost" then v else r.gshp_yearly_operating_cost
    hpwh_rebate := if c = "hpwh_rebate" then v else r.hpwh_rebate
    hpwh_device_cost := if c = "hpwh_device_cost" then v else r.hpwh_device_cost
    hpwh_net_cost := if c = "hpwh_net_cost" then v else r.hpwh_net_cost
    hpwh_yearly_kwh := if c = "hpwh_yearly_kwh" then v else r.hpwh_yearly_kwh
    hpwh_yearly_electrical_cost := if c = "hpwh_yearly_electrical_cost" then v else r.hpwh_yearly_electrical_cost
    hpwh_yearly_operating_cost := if c = "hpwh_yearly_operating_cost" then v else r.hpwh_yearly_operating_cost
    hp_equipment_total := if c = "hp_equipment_total" then v else r.hp_equipment_total
    hp_yearly_operating_total := if c = "hp_yearly_operating_total" then v else r.hp_yearly_operating_total
  }

/-- Row after the savings stage (Excel rows 126-134). -/
structure SavingsRow extends HpRow where
  construction_savings : ℝ
  construction_savings_with_service_line : ℝ
  mortgage_savings : ℝ
  mortgage_savings_with_service_line : ℝ
  operating_savings : ℝ
  total_yearly_savings : ℝ
  total_yearly_savings_with_service_line : ℝ
  present_value_15yr : ℝ
deriving Inhabited

/-- Build one scenario row: identifiers plus building params for the row's
zone, broadcast model and operating params, and resolved fuel prices
(electricity and propane converted from cents, natural gas already dollars). -/
def mkScenRow (cfg : Config) (f z t : String) (b : BuildingParams) : ScenRow :=
  { fuel := f
    zone := z
    hp_technology := t
    floor_area_sf := b.floor_area_sf
    stories := b.stories
    wall_height_ft := b.wall_height_ft
    window_door_pct := b.window_door_pct
    above_grade_basement_wall_height_ft := b.above_grade_basement_wall_height_ft
    below_grade_basement_wall_height_ft := b.below_grade_basement_wall_height_ft
    r_attic := b.r_attic
    r_walls := b.r_walls
    r_windows_doors := b.r_windows_doors
    r_basement_wall := b.r_basement_wall
    ach50 := b.ach50
    slab_f_factor := b.slab_f_factor
    hdd := b.hdd
    furnace_electrical_usage_kwh_per_mmbtu := b.furnace_electrical_usage_kwh_per_mmbtu
    mortgage_rate := cfg.params.mortgage_rate
    mortgage_term_years := cfg.params.mortgage_term_years
    discount_rate := cfg.params.discount_rate
    analysis_period_years := cfg.params.analysis_period_years
    indoor_design_temp_f := cfg.params.indoor_design_temp_f
    sizing_scale_up_factor := cfg.params.sizing_scale_up_factor
    internal_heat_gains_btu := cfg.params.internal_heat_gains_btu
    epa_hdd_adjustment := cfg.params.epa_hdd_adjustment
    propane_tank_cost := cfg.params.propane_tank_cost
    ny_geo_tax_credit_rate := cfg.params.ny_geo_tax_credit_rate
    ny_geo_tax_credit_cap := cfg.params.ny_geo_tax_credit_cap
    federal_25d_rate := cfg.params.federal_25d_rate
    furnace_afue := cfg.op.furnace_afue
    ccashp_hspf2 := cfg.op.ccashp_hspf2
    gshp_cop := cfg.op.gshp_cop
    furnace_maintenance_cost := cfg.op.maintenance_furnace
    ac_maintenance_cost := cfg.op.maintenance_ac
    gwh_maintenance_cost := cfg.op.maintenance_gas_water_heater
    ccashp_maintenance_cost := cfg.op.maintenance_ccashp
    gshp_maintenance_cost := cfg.op.maintenance_gshp
    hpwh_maintenance_cost := cfg.op.maintenance_hpwh
    natural_gas_btu_per_mcf := cfg.op.natural_gas_btu_per_mcf
    propane_btu_per_gallon := cfg.op.propane_btu_per_gallon
    hpwh_daily_kwh := cfg.op.hpwh_daily_kwh
    gwh_fuel_usage_rate :=
      if f = "natural_gas" then cfg.op.gwh_fuel_usage_rate_nat_gas
      else cfg.op.gwh_fuel_usage_rate_propane
    gwh_daily_operating_hours := cfg.op.gwh_daily_operating_hours
    electricity_price := cfg.prices.electricity_cents * 0.01
    fuel_price :=
      if f = "natural_gas" then cfg.prices.natural_gas_dollars
      else cfg.prices.propane_cents * 0.01 }

/-- Apply one override value to one column: where fuel and zone match, use the
override; other rows keep the column's value.  Columns not present in the
stage's column list are silently skipped. -/
def _apply_override_param {R : Type} (cols : List String) (fuelOf zoneOf : R → String)
    (set : String → ℝ → R → R) (f z : String) (rows : List R) (p : String × ℝ) : List R :=
  if p.1 ∈ cols then
    rows.map (fun r => if fuelOf r = f ∧ zoneOf r = z then set p.1 p.2 r else r)
  else rows

/-- Apply all of one (fuel, zone) entry's column overrides in order. -/
def _apply_override_entry {R : Type} (cols : List String) (fuelOf zoneOf : R → String)
    (set : String → ℝ → R → R) (rows : List R)
    (e : (String × String) × List (String × ℝ)) : List R :=
  e.2.foldl (_apply_override_param cols fuelOf zoneOf set e.1.1 e.1.2) rows

/-- The source's `_apply_overrides`, at a given stage's column list and setter:
iterate entries in order, then each entry's named columns in order. -/
def _apply_overrides {R : Type} (cols : List String) (fuelOf zoneOf : R → String)
    (set : String → ℝ → R → R) (ov : Overrides) (rows : List R) : List R :=
  ov.foldl (_apply_override_entry cols fuelOf zoneOf set) rows

/-- Stage 1: the 12-row scenario table (fuels x zones x technologies cross
join, building params joined on zone), with overrides applied last. -/
def build_scenario_table (cfg : Config) (ov : Overrides) : List ScenRow :=
  _apply_overrides scenCols (fun r => r.fuel) (fun r => r.zone) ScenRow.setCol ov
    (fuelsL.flatMap fun f => zonesL.flatMap fun z => techsL.flatMap fun t =>
      (cfg.building.filter (fun b => b.zone = z)).map (mkScenRow cfg f z t))

/-- Geometry columns of one row (Excel rows 12-24). -/
def mkGeom (s : ScenRow) : GeomRow :=
  let wl := Real.sqrt (s.floor_area_sf / s.stories)
  let wsa := wl * 4 * s.stories * s.wall_height_ft
  { toScenRow := s
    wall_length_ft := wl
    wall_surface_area_sf := wsa
    attic_floor_area_sf := s.floor_area_sf / s.stories
    wall_area_excl_windows_sf := wsa * (1 - s.window_door_pct)
    window_door_area_sf := wsa * s.window_door_pct
    above_grade_basement_wall_area_sf := 4 * s.above_grade_basement_wall_height_ft * wl
    below_grade_basement_wall_area_sf := 4 * s.below_grade_basement_wall_height_ft * wl
    basement_floor_perimeter_ft := wl * 4
    volume_cf := s.floor_area_sf * s.wall_height_ft
      + (s.above_grade_basement_wall_height_ft + s.below_grade_basement_wall_height_ft)
        * s.floor_area_sf / s.stories }

/-- Stage 2: building geometry. -/
def compute_building_geometry (cfg : Config) (ov : Overrides) : List GeomRow :=
  (build_scenario_table cfg ov).map mkGeom

/-- Heat-loss columns of one row (Excel rows 33-40). -/
def mkHeatLoss (g : GeomRow) : HeatLossRow :=
  let a := g.attic_floor_area_sf / g.r_attic
  let w := g.wall_area_excl_windows_sf / g.r_walls
  let wd := g.window_door_area_sf / g.r_windows_doors
  let ag := g.above_grade_basement_wall_area_sf / g.r_basement_wall
  let air := 0.018 * (g.ach50 / 20) * g.volume_cf
  let bg := g.below_grade_basement_wall_area_sf / g.r_basement_wall
  let sl := g.basement_floor_perimeter_ft * g.slab_f_factor
  { toGeomRow := g
    heat_loss_attic := a
    heat_loss_walls := w
    heat_loss_windows_doors := wd
    heat_loss_above_grade_basement := ag
    heat_loss_air_changes := air
    heat_loss_below_grade_basement := bg
    heat_loss_slab := sl
    total_heat_loss_rate := a + w + wd + ag + air + bg + sl }

/-- Stage 3: heat-loss rates. -/
def compute_heat_loss_rates (cfg : Config) (ov : Overrides) : List HeatLossRow :=
  (compute_building_geometry cfg ov).map mkHeatLoss

/-- Adjusted HDD and yearly BTU of one row (Excel rows 43-46). -/
def mkBtu (h : HeatLossRow) : BtuRow :=
  let ah := h.hdd - h.epa_hdd_adjustment
  { toHeatLossRow := h
    adjusted_hdd := ah
    yearly_btu := h.total_heat_loss_rate * ah * 24 }

/-- Stage 4: yearly BTU. -/
def compute_yearly_btu (cfg : Config) (ov : Overrides) : List BtuRow :=
  (compute_heat_loss_rates cfg ov).map mkBtu

/-- Sizing columns of one row given its zone's coldest-day design temp. -/
def mkSizing (r : BtuRow) (t : ℝ) : SizingRow :=
  let dd := r.indoor_design_temp_f - t
  let bh := r.total_heat_loss_rate * dd + r.internal_heat_gains_btu
  { toBtuRow := r
    coldest_day_temp_f := t
    degree_diff_coldest_day := dd
    btu_hr_coldest_day := bh
    system_capacity_btu_hr := bh * r.sizing_scale_up_factor }

/-- Stage 5: system sizing; inner join with the zone design-temp table. -/
def compute_system_sizing (cfg : Config) (ov : Overrides) : List SizingRow :=
  (compute_yearly_btu cfg ov).flatMap fun r =>
    ((_compute_zone_design_temps cfg).filter (fun p => p.1 = r.zone)).map
      (fun p => mkSizing r p.2)

/-- Baseline fossil-system cost columns of one row (Excel rows 59-96). -/
def mkBaseline (cfg : Config) (slc : List (String × ℝ)) (s : SizingRow) : BaselineRow :=
  let fec := cfg.equip.furnace
  let gtc := if s.fuel = "propane" then cfg.params.propane_tank_cost else 0
  let fic := fec + gtc
  let fyfu :=
    if s.fuel = "natural_gas" then
      s.yearly_btu / (s.furnace_afue * s.natural_gas_btu_per_mcf)
    else s.yearly_btu / (s.furnace_afue * s.propane_btu_per_gallon)
  let fyfc := fyfu * s.fuel_price
  let fyek := s.yearly_btu / 1000000 * s.furnace_electrical_usage_kwh_per_mmbtu
  let fyec := fyek * s.electricity_price
  let fyoc := fyfc + fyec + s.furnace_maintenance_cost
  let aec := cfg.equip.ac
  let ayoc := s.ac_maintenance_cost
  let gec := cfg.equip.gas_water_heater
  let gyfu := s.gwh_fuel_usage_rate * s.gwh_daily_operating_hours * 365
  let gyfc := gyfu * s.fuel_price
  let gyoc := gyfc + s.gwh_maintenance_cost
  let slv := if s.fuel = "propane" then 0 else lookupD slc s.zone
  let bet := fic + aec + gec
  { toSizingRow := s
    furnace_equipment_cost := fec
    gas_tank_cost := gtc
    furnace_installed_cost := fic
    furnace_yearly_fuel_usage := fyfu
    furnace_yearly_fuel_cost := fyfc
    furnace_yearly_electrical_kwh := fyek
    furnace_yearly_electrical_cost := fyec
    furnace_yearly_operating_cost := fyoc
    ac_equipment_cost := aec
    ac_yearly_operating_cost := ayoc
    gwh_equipment_cost := gec
    gwh_yearly_fuel_usage := gyfu
    gwh_yearly_fuel_cost := gyfc
    gwh_yearly_operating_cost := gyoc
    service_line_cost := slv
    baseline_equipment_total := bet
    baseline_equipment_with_service_line := bet + slv
    baseline_yearly_operating := fyoc + ayoc + gyoc }

/-- Stage 6: baseline costs; zone service-line costs joined by zone. -/
def compute_baseline_costs (cfg : Config) (ov : Overrides) : List BaselineRow :=
  (compute_system_sizing cfg ov).map (mkBaseline cfg (_compute_zone_service_line_costs cfg))

/-- Heat-pump cost columns of one row (Excel rows 100-123).  Exactly one of the
technology branches is active per row; the inactive branch's columns are
forced to 0. -/
def mkHp (cfg : Config) (gshpReb hpwhReb : List (String × ℝ)) (b : BaselineRow) : HpRow :=
  let isCc := b.hp_technology = "ccASHP"
  let isG := b.hp_technology = "GSHP"
  let ccEq :=
    if isCc ∧ b.zone = "4" then cfg.equip.ccashp_zone4
    else if isCc then cfg.equip.ccashp_zone56
    else 0
  let ccRebate : ℝ := 0
  let ccFed : ℝ := 0
  let ccNet := ccEq - ccRebate - ccFed
  let ccKwh := if isCc then b.yearly_btu / (b.ccashp_hspf2 * 1000) else 0
  let ccElec := ccKwh * b.electricity_price
  let ccOp := if isCc then ccElec + b.ccashp_maintenance_cost else 0
  let gReb := if isG then lookupD gshpReb b.zone else 0
  let gEq := if isG then cfg.equip.gshp else 0
  let gNy :=
    if isG then min (gEq * cfg.params.ny_geo_tax_credit_rate) cfg.params.ny_geo_tax_credit_cap
    else 0
  let gFed := if isG then gEq * cfg.params.federal_25d_rate else 0
  let gNet := max (gEq - gReb - gNy - gFed) 0
  let gKwh := if isG then b.yearly_btu / (b.gshp_cop * 3412) else 0
  let gElec := gKwh * b.electricity_price
  let gOp := if isG then gElec + b.gshp_maintenance_cost else 0
  let hReb := lookupD hpwhReb b.zone
  let hDev := cfg.equip.hpwh
  let hNet := hDev - hReb
  let hKwh := b.hpwh_daily_kwh * 365
  let hElec := hKwh * b.electricity_price
  let hOp := hElec + b.hpwh_maintenance_cost
  { toBaselineRow := b
    ccashp_equipment_cost := ccEq
    ccashp_rebate := ccRebate
    ccashp_federal_tax_credit := ccFed
    ccashp_net_cost := ccNet
    ccashp_yearly_kwh := ccKwh
    ccashp_yearly_electrical_cost := ccElec
    ccashp_yearly_operating_cost := ccOp
    gshp_rebate := gReb
    gshp_equipment_cost := gEq
    gshp_ny_tax_credit := gNy
    gshp_federal_tax_credit := gFed
    gshp_net_cost := gNet
    gshp_yearly_kwh := gKwh
    gshp_yearly_electrical_cost := gElec
    gshp_yearly_operating_cost := gOp
    hpwh_rebate := hReb
    hpwh_device_cost := hDev
    hpwh_net_cost := hNet
    hpwh_yearly_kwh := hKwh
    hpwh_yearly_electrical_cost := hElec
    hpwh_yearly_operating_cost := hOp
    hp_equipment_total := (if isCc then ccNet else gNet) + hNet
    hp_yearly_operating_total := (if isCc then ccOp else gOp) + hOp }

/-- Stage 7: heat-pump costs; zone GSHP and HPWH rebate blends joined by zone. -/
def compute_heat_pump_costs (cfg : Config) (ov : Overrides) : List HpRow :=
  (compute_baseline_costs cfg ov).map
    (mkHp cfg (_compute_zone_gshp_rebates cfg) (_compute_zone_hpwh_rebates cfg))

/-- Annual mortgage payment with annual compounding:
rate * principal / (1 - (1 + rate)^(-n)). -/
def pmt (rate n principal : ℝ) : ℝ :=
  (rate * principal) / (1 - (1 + rate) ^ (-n))

/-- Present value of a level annual payment of 1 over n years:
(1 - (1 + rate)^(-n)) / rate. -/
def annuityFactor (rate n : ℝ) : ℝ :=
  (1 - (1 + rate) ^ (-n)) / rate

/-- Savings columns of one row (Excel rows 126-134). -/
def mkSavings (h : HpRow) : SavingsRow :=
  let cs := h.baseline_equipment_total - h.hp_equipment_total
  let csl := h.baseline_equipment_with_service_line - h.hp_equipment_total
  let ms := pmt h.mortgage_rate h.mortgage_term_years h.baseline_equipment_total
    - pmt h.mortgage_rate h.mortgage_term_years h.hp_equipment_total
  let msl := pmt h.mortgage_rate h.mortgage_term_years h.baseline_equipment_with_service_line
    - pmt h.mortgage_rate h.mortgage_term_years h.hp_equipment_total
  let os := h.baseline_yearly_operating - h.hp_yearly_operating_total
  let ts := ms + os
  let tsl := msl + os
  { toHpRow := h
    construction_savings := cs
    construction_savings_with_service_line := csl
    mortgage_savings := ms
    mortgage_savings_with_service_line := msl
    operating_savings := os
    total_yearly_savings := ts
    total_yearly_savings_with_service_line := tsl
    present_value_15yr := tsl * annuityFactor h.discount_rate h.analysis_period_years }

/-- Stage 8: savings.  Overrides are applied a second time here, against the
full post-cost column list, before any savings column is computed. -/
def compute_savings (cfg : Config) (ov : Overrides) : List SavingsRow :=
  (_apply_overrides hpCols (fun r => r.fuel) (fun r => r.zone) HpRow.setCol ov
      (compute_heat_pump_costs cfg ov)).map mkSavings

/-- One (fuel, zone) row of the survey-weight table. -/
structure SurveyWeight where
  fuel : String
  zone : String
  survey_count : ℝ
  total_ff_survey_responses : ℝ
  pct_ff_using_fuel : ℝ
deriving Inhabited

/-- Scenario row enriched with aggregation weights (Excel rows 137-141). -/
structure WAScenRow extends SavingsRow where
  survey_count : ℝ
  total_ff_survey_responses : ℝ
  pct_ff_using_fuel : ℝ
  pct_new_construction_in_zone : ℝ
  pct_new_construction_fuel_zone : ℝ
deriving Inhabited

/-- One aggregate output row of compute_weighted_averages.  Fields that the
diagonal concat leaves null for a given aggregate kind are `none`. -/
structure AggRow where
  key : String
  weighted_statewide_savings_by_fuel : Option ℝ
  weighted_zonewide_savings : Option ℝ
  weighted_statewide_savings : Option ℝ
  weighted_statewide_pv : Option ℝ
  hp_technology : String
deriving Inhabited

/-- Survey system types counted as natural gas. -/
def gas_system_types : List String := ["Furnace + Gas", "Boiler + Gas"]

/-- Survey system types counted as propane. -/
def propane_system_types : List String := ["Furnace + Propane or Oil", "Boiler + Propane or Oil"]

/-- Total survey respondent count over the given system types in a zone. -/
def surveyCount (survey : List SurveyRow) (types : List String) (z : String) : ℝ :=
  ((survey.filter (fun s => s.system_type ∈ types)).map
    (fun s => if z = "4" then s.zone_4_count else if z = "5" then s.zone_5_count
      else s.zone_6_count)).sum

/-- Survey weights: for each zone (in order), a natural-gas row then a propane
row, with the fraction of fossil-fuel respondents using that fuel. -/
def _compute_survey_weights (survey : List SurveyRow) : List SurveyWeight :=
  zonesL.flatMap fun z =>
    let g := surveyCount survey gas_system_types z
    let p := surveyCount survey propane_system_types z
    [{ fuel := "natural_gas", zone := z, survey_count := g,
       total_ff_survey_responses := g + p, pct_ff_using_fuel := g / (g + p) },
     { fuel := "propane", zone := z, survey_count := p,
       total_ff_survey_responses := g + p, pct_ff_using_fuel := p / (g + p) }]

/-- Sum of county new-construction shares per zone (not zone-normalized). -/
def _compute_zone_new_construction_shares (cfg : Config) : List (String × ℝ) :=
  (distinctKeys (cfg.counties.map (fun c => c.zone))).map fun z =>
    (z, ((cfg.counties.filter (fun c => c.zone = z)).map
      (fun c => c.new_construction_share)).sum)

/-- Scenario rows of the aggregation stage: savings rows inner-joined with the
survey weights on (fuel, zone) and the zone shares on zone, plus the joint
weight column. -/
def waScenRows (cfg : Config) (ov : Overrides) : List WAScenRow :=
  (compute_savings cfg ov).flatMap fun r =>
    ((_compute_survey_weights cfg.survey).filter
        (fun w => w.fuel = r.fuel ∧ w.zone = r.zone)).flatMap fun w =>
      ((_compute_zone_new_construction_shares cfg).filter
          (fun q => q.1 = r.zone)).map fun q =>
        { toSavingsRow := r
          survey_count := w.survey_count
          total_ff_survey_responses := w.total_ff_survey_responses
          pct_ff_using_fuel := w.pct_ff_using_fuel
          pct_new_construction_in_zone := q.2
          pct_new_construction_fuel_zone := w.pct_ff_using_fuel * q.2 }

/-- Weighted statewide yearly savings by fuel (Excel row 144): group one
technology's rows by fuel, weighting by pct_new_construction_in_zone. -/
def fuelAgg (tech : String) (td : List WAScenRow) : List AggRow :=
  (distinctKeys (td.map (fun r => r.fuel))).map fun f =>
    let g := td.filter (fun r => r.fuel = f)
    { key := f
      weighted_statewide_savings_by_fuel := some
        (((g.map (fun r =>
            r.total_yearly_savings_with_service_line * r.pct_new_construction_in_zone)).sum)
          / ((g.map (fun r => r.pct_new_construction_in_zone)).sum))
      weighted_zonewide_savings := none
      weighted_statewide_savings := none
      weighted_statewide_pv := none
      hp_technology := tech }

/-- Weighted zonewide yearly savings (Excel row 146): group one technology's
rows by zone, weighting by pct_ff_using_fuel. -/
def zoneAgg (tech : String) (td : List WAScenRow) : List AggRow :=
  (distinctKeys (td.map (fun r => r.zone))).map fun z =>
    let g := td.filter (fun r => r.zone = z)
    { key := z
      weighted_statewide_savings_by_fuel := none
      weighted_zonewide_savings := some
        (((g.map (fun r =>
            r.total_yearly_savings_with_service_line * r.pct_ff_using_fuel)).sum)
          / ((g.map (fun r => r.pct_ff_using_fuel)).sum))
      weighted_statewide_savings := none
      weighted_statewide_pv := none
      hp_technology := tech }

/-- Overall weighted statewide savings and its present value (Excel rows
148-149): weighted by the joint weight; the present value applies the annuity
factor (taken from the technology's first row) to the aggregated yearly
savings. -/
def overallAgg (tech : String) (td : List WAScenRow) : AggRow :=
  let s := ((td.map (fun r =>
      r.total_yearly_savings_with_service_line * r.pct_new_construction_fuel_zone)).sum)
    / ((td.map (fun r => r.pct_new_construction_fuel_zone)).sum)
  let r0 := td.headI
  { key := "overall"
    weighted_statewide_savings_by_fuel := none
    weighted_zonewide_savings := none
    weighted_statewide_savings := some s
    weighted_statewide_pv := some (s * annuityFactor r0.discount_rate r0.analysis_period_years)
    hp_technology := tech }

/-- Stage 9: aggregation output, the scenario rows followed by each
technology's fuel-level, zone-level and overall aggregate rows. -/
def compute_weighted_averages (cfg : Config) (ov : Overrides) :
    List (WAScenRow ⊕ AggRow) :=
  let scen := waScenRows cfg ov
  scen.map Sum.inl ++
    (techsL.flatMap fun t =>
      let td := scen.filter (fun r => r.hp_technology = t)
      (fuelAgg t td ++ zoneAgg t td) ++ [overallAgg t td]).map Sum.inr

/-- A cell value of the generic DataFrame model: string or numeric. -/
inductive Val where
  | str : String → Val
  | num : ℝ → Val

/-- Whether a cell holds exactly the given string (the string-equality mask a
column comparison against a string literal produces). -/
def Val.isStr (v : Val) (s : String) : Bool :=
  match v with
  | .str t => t = s
  | .num _ => false

/-- A generic DataFrame: named columns and rows mapping column names to cells. -/
structure DF where
  cols : List String
  rows : List (String → Val)

/-- The (fuel, zone) match mask of one row. -/
def rowMatches (r : String → Val) (f z : String) : Bool :=
  (r "fuel").isStr f && (r "zone").isStr z

/-- One column override on the generic DataFrame: skipped when the column is
absent, otherwise rewritten on rows whose fuel and zone match. -/
def dfOverrideCol (f z c : String) (v : Val) (df : DF) : DF :=
  if c ∈ df.cols then
    { df with
      rows := df.rows.map (fun r => fun c2 =>
        if c2 = c then (if rowMatches r f z then v else r c) else r c2) }
  else df

/-- Generic-value overrides: (fuel, zone) keys mapping column names to cells. -/
abbrev DFOverrides := List ((String × String) × List (String × Val))

/-- The source's `_apply_overrides` over the generic DataFrame model: iterate
entries in order, then each entry's named columns in order. -/
def dfApplyOverrides (ov : DFOverrides) (df : DF) : DF :=
  ov.foldl (fun d e => e.2.foldl (fun d2 p => dfOverrideCol e.1.1 e.1.2 p.1 p.2 d2) d) df

/-- Modelled from the spec: the override value the contract assigns to one
cell, with matching read off the input row.  Given a mapping from (fuel, zone)
to named values and a row, a named column present in the table is replaced by
the override value on rows whose fuel and zone equal the key; everything else
is unchanged. -/
def specOverrideValue (cols : List String) (ov : DFOverrides)
    (r : String → Val) (c : String) : Option Val :=
  if c ∈ cols then
    ov.findSome? (fun e =>
      if rowMatches r e.1.1 e.1.2 then
        (e.2.find? (fun p => p.1 = c)).map (fun p => p.2)
      else none)
  else none

/-- A default cell row for indexed access. -/
def blankRow : String → Val := fun _ => Val.num 0

/-- Input table of the override counterexample: one row with fuel "a",
zone "z" and a numeric column "x" holding 0. -/
def dfC : DF :=
  { cols := ["fuel", "zone", "x"]
    rows := [fun c =>
      if c = "fuel" then Val.str "a"
      else if c = "zone" then Val.str "z"
      else Val.num 0] }

/-- Overrides of the counterexample: the key ("a", "z") renames the row's fuel
to "b" before its second named column "x" is applied. -/
def ovC : DFOverrides :=
  [(("a", "z"), [("fuel", Val.str "b"), ("x", Val.num 1)])]

/-- A concrete witness configuration.  Geometry degenerates to simple values
(floor area 1, one story, zero wall height) so that derived quantities reduce
to rationals via sqrt 1 = 1. -/
def cfgW : Config :=
  { building :=
      [{ zone := "4", floor_area_sf := 1, stories := 1, wall_height_ft := 0,
         window_door_pct := 0, above_grade_basement_wall_height_ft := 0,
         below_grade_basement_wall_height_ft := 0, r_attic := 1, r_walls := 1,
         r_windows_doors := 1, r_basement_wall := 1, ach50 := 0, slab_f_factor := 0,
         hdd := 1, furnace_electrical_usage_kwh_per_mmbtu := 0 },
       { zone := "5", floor_area_sf := 1, stories := 1, wall_height_ft := 0,
         window_door_pct := 0, above_grade_basement_wall_height_ft := 0,
         below_grade_basement_wall_height_ft := 0, r_attic := 1, r_walls := 1,
         r_windows_doors := 1, r_basement_wall := 1, ach50 := 0, slab_f_factor := 0,
         hdd := 1, furnace_electrical_usage_kwh_per_mmbtu := 0 },
       { zone := "6", floor_area_sf := 1, stories := 1, wall_height_ft := 0,
         window_door_pct := 0, above_grade_basement_wall_height_ft := 0,
         below_grade_basement_wall_height_ft := 0, r_attic := 1, r_walls := 1,
         r_windows_doors := 1, r_basement_wall := 1, ach50 := 0, slab_f_factor := 0,
         hdd := 1, furnace_electrical_usage_kwh_per_mmbtu := 0 }]
    params :=
      { mortgage_rate := 1, mortgage_term_years := 1, discount_rate := 1,
        analysis_period_years := 1, indoor_design_temp_f := 1,
        sizing_scale_up_factor := 1, internal_heat_gains_btu := 0,
        epa_hdd_adjustment := 0, propane_tank_cost := 0,
        ny_geo_tax_credit_rate := 1, ny_geo_tax_credit_cap := 1,
        federal_25d_rate := 1 }
    op :=
      { furnace_afue := 0.95, ccashp_hspf2 := 1, gshp_cop := 1,
        maintenance_furnace := 0, maintenance_ac := 0,
        maintenance_gas_water_heater := 0, maintenance_ccashp := 0,
        maintenance_gshp := 0, maintenance_hpwh := 0,
        natural_gas_btu_per_mcf := 1, propane_btu_per_gallon := 1,
        hpwh_daily_kwh := 0, gwh_fuel_usage_rate_nat_gas := 1,
        gwh_fuel_usage_rate_propane := 1, gwh_daily_operating_hours := 1 }
    prices :=
      { electricity_cents := 100, natural_gas_dollars := 1, propane_cents := 100 }
    counties :=
      [{ electric_utility := "u", gas_utility := some "g", zone := "4",
         design_temp_f := 0, new_construction_share := 1 },
       { electric_utility := "u", gas_utility := some "g", zone := "5",
         design_temp_f := 0, new_construction_share := 1 },
       { electric_utility := "u", gas_utility := some "g", zone := "6",
         design_temp_f := 0, new_construction_share := 1 }]
    rebates := []
    serviceLines := []
    survey := []
    equip :=
      { furnace := 1, ac := 1, gas_water_heater := 1, hpwh := 1,
        ccashp_zone4 := 1, ccashp_zone56 := 1, gshp := 1, gshp_tons := 1 } }

/-- Replace only the furnace AFUE efficiency in a configuration. -/
def Config.withAfue (cfg : Config) (a : ℝ) : Config :=
  { cfg with op := { cfg.op with furnace_afue := a } }

/-- First row of the heat-loss table under the witness configuration. -/
def hlW0 : HeatLossRow := (compute_heat_loss_rates cfgW [])[0]!

/-- First row of the heat-pump-cost table under the witness configuration. -/
def hpW0 : HpRow := (compute_heat_pump_costs cfgW [])[0]!

/-- First two rows of the geometry table under the witness configuration
(natural gas, zone 4: one ccASHP row and one GSHP row). -/
def geomW0 : GeomRow := (compute_building_geometry cfgW [])[0]!

/-- Second geometry row of the witness run (same fuel and zone as the first,
other technology). -/
def geomW1 : GeomRow := (compute_building_geometry cfgW [])[1]!

/-- First baseline-cost row of the witness run. -/
def blW0 : BaselineRow := (compute_baseline_costs cfgW [])[0]!

/-- First baseline-cost row of the witness run with AFUE lowered to 0.92. -/
def blW0lo : BaselineRow := (compute_baseline_costs (cfgW.withAfue 0.92) [])[0]!

/-- Per-row effect of one column override of the generic DataFrame model. -/
def dfRowStep (cols : List String) (f z : String) (r : String → Val)
    (p : String × Val) : String → Val :=
  if p.1 ∈ cols then
    (fun c2 => if c2 = p.1 then (if rowMatches r f z then p.2 else r p.1) else r c2)
  else r

/-- Per-row effect of one (fuel, zone) override entry. -/
def dfRowEntry (cols : List String) (e : (String × String) × List (String × Val))
    (r : String → Val) : String → Val :=
  e.2.foldl (dfRowStep cols e.1.1 e.1.2) r

/-- Per-row effect of a whole overrides mapping. -/
def dfRowTransform (cols : List String) (ov : DFOverrides)
    (r : String → Val) : String → Val :=
  ov.foldl (fun r2 e => dfRowEntry cols e r2) r

/-- A well-behaved override mapping for the contract witness. -/
def ovW : DFOverrides := [(("a", "z"), [("x", Val.num 2)])]

/-- Witness override naming a cost-stage column. -/
def ovA9 : Overrides := [(("natural_gas", "4"), [("hp_equipment_total", 7)])]

/-- Witness override naming a scenario-stage column. -/
def ovB9 : Overrides := [(("natural_gas", "4"), [("furnace_afue", 7)])]

/-- First savings row of the witness run under the cost-stage override. -/
def savW0 : SavingsRow := (compute_savings cfgW ovA9)[0]!

/-- The twelve (fuel, zone, technology) triples of the scenario cross product,
in construction order. -/
def base12 : List (String × String × String) :=
  [("natural_gas", "4", "ccASHP"), ("natural_gas", "4", "GSHP"),
   ("natural_gas", "5", "ccASHP"), ("natural_gas", "5", "GSHP"),
   ("natural_gas", "6", "ccASHP"), ("natural_gas", "6", "GSHP"),
   ("propane", "4", "ccASHP"), ("propane", "4", "GSHP"),
   ("propane", "5", "ccASHP"), ("propane", "5", "GSHP"),
   ("propane", "6", "ccASHP"), ("propane", "6", "GSHP")]

-- END OF DEFINITIONS

theorem hlW0_mem : hlW0 ∈ compute_heat_loss_rates cfgW [] := by
  unfold hlW0
  rw [getElem!_pos _ _ (by decide)]
  exact List.getElem_mem _

/-- C1: in every row of the heat-loss table, each envelope component's
heat-loss rate is its area over its R-value, except the air-change and slab
terms, and the total is the sum of exactly the seven components. -/
theorem c1_heat_loss_components (cfg : Config) (ov : Overrides) (r : HeatLossRow)
    (hr : r ∈ compute_heat_loss_rates cfg ov) :
    r.heat_loss_attic = r.attic_floor_area_sf / r.r_attic ∧
    r.heat_loss_walls = r.wall_area_excl_windows_sf / r.r_walls ∧
    r.heat_loss_windows_doors = r.window_door_area_sf / r.r_windows_doors ∧
    r.heat_loss_above_grade_basement = r.above_grade_basement_wall_area_sf / r.r_basement_wall ∧
    r.heat_loss_below_grade_basement = r.below_grade_basement_wall_area_sf / r.r_basement_wall ∧
    r.heat_loss_air_changes = 0.018 * (r.ach50 / 20) * r.volume_cf ∧
    r.heat_loss_slab = r.basement_floor_perimeter_ft * r.slab_f_factor ∧
    r.total_heat_loss_rate =
      r.heat_loss_attic + r.heat_loss_walls + r.heat_loss_windows_doors +
      r.heat_loss_above_grade_basement + r.heat_loss_air_changes +
      r.heat_loss_below_grade_basement + r.heat_loss_slab := by
  obtain ⟨g, _, rfl⟩ := List.mem_map.mp hr
  exact ⟨rfl, rfl, rfl, rfl, rfl, rfl, rfl, rfl⟩

/-- C1 witness: the component equations hold at the first row of the witness
run. -/
theorem c1_witness :
    hlW0 ∈ compute_heat_loss_rates cfgW [] ∧
    (hlW0.heat_loss_attic = hlW0.attic_floor_area_sf / hlW0.r_attic ∧
     hlW0.heat_loss_walls = hlW0.wall_area_excl_windows_sf / hlW0.r_walls ∧
     hlW0.heat_loss_windows_doors = hlW0.window_door_area_sf / hlW0.r_windows_doors ∧
     hlW0.heat_loss_above_grade_basement =
       hlW0.above_grade_basement_wall_area_sf / hlW0.r_basement_wall ∧
     hlW0.heat_loss_below_grade_basement =
       hlW0.below_grade_basement_wall_area_sf / hlW0.r_basement_wall ∧
     hlW0.heat_loss_air_changes = 0.018 * (hlW0.ach50 / 20) * hlW0.volume_cf ∧
     hlW0.heat_loss_slab = hlW0.basement_floor_perimeter_ft * hlW0.slab_f_factor ∧
     hlW0.total_heat_loss_rate =
       hlW0.heat_loss_attic + hlW0.heat_loss_walls + hlW0.heat_loss_windows_doors +
       hlW0.heat_loss_above_grade_basement + hlW0.heat_loss_air_changes +
       hlW0.heat_loss_below_grade_basement + hlW0.heat_loss_slab) :=
  ⟨hlW0_mem, c1_heat_loss_components cfgW [] hlW0 hlW0_mem⟩

theorem hpW0_mem : hpW0 ∈ compute_heat_pump_costs cfgW [] := by
  unfold hpW0
  rw [getElem!_pos _ _ (by decide)]
  exact List.getElem_mem _

/-- C5: gshp_net_cost is the zero-floored net of equipment minus all
incentives, hence never negative; on GSHP rows the NY credit is capped and the
federal credit is an uncapped rate. -/
theorem c5_gshp_net_cost_floor (cfg : Config) (ov : Overrides) (r : HpRow)
    (hr : r ∈ compute_heat_pump_costs cfg ov) :
    r.gshp_net_cost =
      max 0 (r.gshp_equipment_cost - r.gshp_rebate - r.gshp_ny_tax_credit -
        r.gshp_federal_tax_credit) ∧
    0 ≤ r.gshp_net_cost ∧
    (r.hp_technology = "GSHP" →
      r.gshp_ny_tax_credit =
        min (cfg.params.ny_geo_tax_credit_rate * r.gshp_equipment_cost)
          cfg.params.ny_geo_tax_credit_cap ∧
      r.gshp_federal_tax_credit = cfg.params.federal_25d_rate * r.gshp_equipment_cost) := by
  obtain ⟨b, _, rfl⟩ := List.mem_map.mp hr
  refine ⟨max_comm _ 0, le_max_right _ 0, fun hg => ?_⟩
  have hb : b.hp_technology = "GSHP" := hg
  refine ⟨?_, ?_⟩ <;> simp [mkHp, hb, mul_comm]

/-- C5 witness: the floor equations hold at the first witness row. -/
theorem c5_witness :
    hpW0 ∈ compute_heat_pump_costs cfgW [] ∧
    (hpW0.gshp_net_cost =
      max 0 (hpW0.gshp_equipment_cost - hpW0.gshp_rebate - hpW0.gshp_ny_tax_credit -
        hpW0.gshp_federal_tax_credit) ∧
     0 ≤ hpW0.gshp_net_cost ∧
     (hpW0.hp_technology = "GSHP" →
       hpW0.gshp_ny_tax_credit =
         min (cfgW.params.ny_geo_tax_credit_rate * hpW0.gshp_equipment_cost)
           cfgW.params.ny_geo_tax_credit_cap ∧
       hpW0.gshp_federal_tax_credit =
         cfgW.params.federal_25d_rate * hpW0.gshp_equipment_cost)) :=
  ⟨hpW0_mem, c5_gshp_net_cost_floor cfgW [] hpW0 hpW0_mem⟩

/-- C10: hpwh_net_cost is device minus rebate with no lower bound, negative
whenever the blended rebate exceeds the device cost, and is added as-is into
hp_equipment_total. -/
theorem c10_hpwh_net_cost_unfloored (cfg : Config) (ov : Overrides) (r : HpRow)
    (hr : r ∈ compute_heat_pump_costs cfg ov) :
    r.hpwh_net_cost = r.hpwh_device_cost - r.hpwh_rebate ∧
    (r.hpwh_device_cost < r.hpwh_rebate → r.hpwh_net_cost < 0) ∧
    r.hp_equipment_total =
      (if r.hp_technology = "ccASHP" then r.ccashp_net_cost else r.gshp_net_cost) +
        r.hpwh_net_cost := by
  obtain ⟨b, _, rfl⟩ := List.mem_map.mp hr
  exact ⟨rfl, fun h => sub_neg.mpr h, rfl⟩

/-- C10 witness: the unfloored net-cost equations hold at the first witness
row. -/
theorem c10_witness :
    hpW0 ∈ compute_heat_pump_costs cfgW [] ∧
    (hpW0.hpwh_net_cost = hpW0.hpwh_device_cost - hpW0.hpwh_rebate ∧
     (hpW0.hpwh_device_cost < hpW0.hpwh_rebate → hpW0.hpwh_net_cost < 0) ∧
     hpW0.hp_equipment_total =
       (if hpW0.hp_technology = "ccASHP" then hpW0.ccashp_net_cost
        else hpW0.gshp_net_cost) + hpW0.hpwh_net_cost) :=
  ⟨hpW0_mem, c10_hpwh_net_cost_unfloored cfgW [] hpW0 hpW0_mem⟩

theorem _apply_override_param_map_proj {R T : Type} (cols : List String)
    (fuelOf zoneOf : R → String) (set : String → ℝ → R → R) (proj : R → T)
    (hset : ∀ c v r, proj (set c v r) = proj r) (f z : String)
    (rows : List R) (p : String × ℝ) :
    (_apply_override_param cols fuelOf zoneOf set f z rows p).map proj = rows.map proj := by
  unfold _apply_override_param
  split
  · rw [List.map_map]
    refine List.map_congr_left fun r _ => ?_
    by_cases h : fuelOf r = f ∧ zoneOf r = z
    · simp [h, hset]
    · simp [h]
  · rfl

theorem _apply_override_entry_map_proj {R T : Type} (cols : List String)
    (fuelOf zoneOf : R → String) (set : String → ℝ → R → R) (proj : R → T)
    (hset : ∀ c v r, proj (set c v r) = proj r)
    (rows : List R) (e : (String × String) × List (String × ℝ)) :
    (_apply_override_entry cols fuelOf zoneOf set rows e).map proj = rows.map proj := by
  unfold _apply_override_entry
  induction e.2 generalizing rows with
  | nil => rfl
  | cons p ps ih =>
    rw [List.foldl_cons, ih, _apply_override_param_map_proj cols fuelOf zoneOf set proj hset]

theorem _apply_overrides_map_proj {R T : Type} (cols : List String)
    (fuelOf zoneOf : R → String) (set : String → ℝ → R → R) (proj : R → T)
    (hset : ∀ c v r, proj (set c v r) = proj r) (ov : Overrides) (rows : List R) :
    (_apply_overrides cols fuelOf zoneOf set ov rows).map proj = rows.map proj := by
  unfold _apply_overrides
  induction ov generalizing rows with
  | nil => rfl
  | cons e ovt ih =>
    rw [List.foldl_cons, ih, _apply_override_entry_map_proj cols fuelOf zoneOf set proj hset]

theorem scen_setCol_ids (c : String) (v : ℝ) (r : ScenRow) :
    ((ScenRow.setCol c v r).fuel, (ScenRow.setCol c v r).zone,
      (ScenRow.setCol c v r).hp_technology) = (r.fuel, r.zone, r.hp_technology) := rfl

theorem hp_setCol_ids (c : String) (v : ℝ) (r : HpRow) :
    ((HpRow.setCol c v r).fuel, (HpRow.setCol c v r).zone,
      (HpRow.setCol c v r).hp_technology) = (r.fuel, r.zone, r.hp_technology) := rfl

theorem mem_apply_overrides_proj {R T : Type} {cols : List String}
    {fuelOf zoneOf : R → String} {set : String → ℝ → R → R} (proj : R → T)
    (hset : ∀ c v r, proj (set c v r) = proj r) {ov : Overrides} {rows : List R}
    {r : R} (hr : r ∈ _apply_overrides cols fuelOf zoneOf set ov rows) :
    ∃ r0 ∈ rows, proj r = proj r0 := by
  have h1 : proj r ∈ (_apply_overrides cols fuelOf zoneOf set ov rows).map proj :=
    List.mem_map_of_mem proj hr
  rw [_apply_overrides_map_proj cols fuelOf zoneOf set proj hset] at h1
  obtain ⟨r0, h0, he⟩ := List.mem_map.mp h1
  exact ⟨r0, h0, he.symm⟩

/-- Every scenario row's identifiers come from the cross product. -/
theorem scen_ids (cfg : Config) (ov : Overrides) (r : ScenRow)
    (hr : r ∈ build_scenario_table cfg ov) :
    r.fuel ∈ fuelsL ∧ r.zone ∈ zonesL ∧ r.hp_technology ∈ techsL := by
  obtain ⟨r0, h0, he⟩ := mem_apply_overrides_proj
    (fun r : ScenRow => (r.fuel, r.zone, r.hp_technology)) scen_setCol_ids hr
  obtain ⟨f, hf, h1⟩ := List.mem_flatMap.mp h0
  obtain ⟨z, hz, h2⟩ := List.mem_flatMap.mp h1
  obtain ⟨t, ht, h3⟩ := List.mem_flatMap.mp h2
  obtain ⟨b, _, rfl⟩ := List.mem_map.mp h3
  have h4 : r.fuel = f ∧ r.zone = z ∧ r.hp_technology = t := by
    have := he
    simp only [Prod.mk.injEq] at this
    exact ⟨this.1, this.2.1, this.2.2⟩
  rw [h4.1, h4.2.1, h4.2.2]
  exact ⟨hf, hz, ht⟩

/-- Every heat-pump-cost row's identifiers come from the cross product. -/
theorem hp_ids (cfg : Config) (ov : Overrides) (r : HpRow)
    (hr : r ∈ compute_heat_pump_costs cfg ov) :
    r.fuel ∈ fuelsL ∧ r.zone ∈ zonesL ∧ r.hp_technology ∈ techsL := by
  obtain ⟨b, hb, rfl⟩ := List.mem_map.mp hr
  obtain ⟨s, hs, rfl⟩ := List.mem_map.mp hb
  obtain ⟨r3, h3, hsz⟩ := List.mem_flatMap.mp hs
  obtain ⟨p, _, rfl⟩ := List.mem_map.mp hsz
  obtain ⟨r4, h4, rfl⟩ := List.mem_map.mp h3
  obtain ⟨r5, h5, rfl⟩ := List.mem_map.mp h4
  obtain ⟨r6, h6, rfl⟩ := List.mem_map.mp h5
  exact scen_ids cfg ov r6 h6

/-- C4: per row, exactly the family matching hp_technology is non-zero and
every column of the other technology's family is exactly 0. -/
theorem c4_technology_isolation (cfg : Config) (ov : Overrides) (r : HpRow)
    (hr : r ∈ compute_heat_pump_costs cfg ov)
    (h4 : 0 < cfg.equip.ccashp_zone4) (h56 : 0 < cfg.equip.ccashp_zone56)
    (hgp : 0 < cfg.equip.gshp) :
    (r.hp_technology = "ccASHP" ∨ r.hp_technology = "GSHP") ∧
    (r.hp_technology = "ccASHP" →
      (r.gshp_equipment_cost = 0 ∧ r.gshp_rebate = 0 ∧ r.gshp_ny_tax_credit = 0 ∧
       r.gshp_federal_tax_credit = 0 ∧ r.gshp_net_cost = 0 ∧ r.gshp_yearly_kwh = 0 ∧
       r.gshp_yearly_electrical_cost = 0 ∧ r.gshp_yearly_operating_cost = 0) ∧
      ¬(r.ccashp_equipment_cost = 0 ∧ r.ccashp_rebate = 0 ∧
        r.ccashp_federal_tax_credit = 0 ∧ r.ccashp_net_cost = 0 ∧
        r.ccashp_yearly_kwh = 0 ∧ r.ccashp_yearly_electrical_cost = 0 ∧
        r.ccashp_yearly_operating_cost = 0)) ∧
    (r.hp_technology = "GSHP" →
      (r.ccashp_equipment_cost = 0 ∧ r.ccashp_rebate = 0 ∧
       r.ccashp_federal_tax_credit = 0 ∧ r.ccashp_net_cost = 0 ∧
       r.ccashp_yearly_kwh = 0 ∧ r.ccashp_yearly_electrical_cost = 0 ∧
       r.ccashp_yearly_operating_cost = 0) ∧
      ¬(r.gshp_equipment_cost = 0 ∧ r.gshp_rebate = 0 ∧ r.gshp_ny_tax_credit = 0 ∧
        r.gshp_federal_tax_credit = 0 ∧ r.gshp_net_cost = 0 ∧ r.gshp_yearly_kwh = 0 ∧
        r.gshp_yearly_electrical_cost = 0 ∧ r.gshp_yearly_operating_cost = 0)) := by
  have htech := (hp_ids cfg ov r hr).2.2
  obtain ⟨b, _, rfl⟩ := List.mem_map.mp hr
  refine ⟨?_, fun hcc => ?_, fun hg => ?_⟩
  · simpa [techsL] using htech
  · have hb : b.hp_technology = "ccASHP" := hcc
    have hbg : ¬ b.hp_technology = "GSHP" := by rw [hb]; decide
    constructor
    · simp [mkHp, hbg]
    · intro hz
      have he := hz.1
      by_cases h4z : b.zone = "4" <;> simp [mkHp, hb, h4z] at he
      · exact absurd he (ne_of_gt h4)
      · exact absurd he (ne_of_gt h56)
  · have hb : b.hp_technology = "GSHP" := hg
    have hbc : ¬ b.hp_technology = "ccASHP" := by rw [hb]; decide
    constructor
    · simp [mkHp, hbc]
    · intro hz
      have he := hz.1
      simp [mkHp, hb] at he
      exact absurd he (ne_of_gt hgp)

/-- C4 witness: isolation holds at the first witness row, whose equipment
prices are positive. -/
theorem c4_witness :
    hpW0 ∈ compute_heat_pump_costs cfgW [] ∧
    0 < cfgW.equip.ccashp_zone4 ∧ 0 < cfgW.equip.ccashp_zone56 ∧ 0 < cfgW.equip.gshp ∧
    ((hpW0.hp_technology = "ccASHP" ∨ hpW0.hp_technology = "GSHP") ∧
     (hpW0.hp_technology = "ccASHP" →
       (hpW0.gshp_equipment_cost = 0 ∧ hpW0.gshp_rebate = 0 ∧ hpW0.gshp_ny_tax_credit = 0 ∧
        hpW0.gshp_federal_tax_credit = 0 ∧ hpW0.gshp_net_cost = 0 ∧ hpW0.gshp_yearly_kwh = 0 ∧
        hpW0.gshp_yearly_electrical_cost = 0 ∧ hpW0.gshp_yearly_operating_cost = 0) ∧
       ¬(hpW0.ccashp_equipment_cost = 0 ∧ hpW0.ccashp_rebate = 0 ∧
         hpW0.ccashp_federal_tax_credit = 0 ∧ hpW0.ccashp_net_cost = 0 ∧
         hpW0.ccashp_yearly_kwh = 0 ∧ hpW0.ccashp_yearly_electrical_cost = 0 ∧
         hpW0.ccashp_yearly_operating_cost = 0)) ∧
     (hpW0.hp_technology = "GSHP" →
       (hpW0.ccashp_equipment_cost = 0 ∧ hpW0.ccashp_rebate = 0 ∧
        hpW0.ccashp_federal_tax_credit = 0 ∧ hpW0.ccashp_net_cost = 0 ∧
        hpW0.ccashp_yearly_kwh = 0 ∧ hpW0.ccashp_yearly_electrical_cost = 0 ∧
        hpW0.ccashp_yearly_operating_cost = 0) ∧
       ¬(hpW0.gshp_equipment_cost = 0 ∧ hpW0.gshp_rebate = 0 ∧ hpW0.gshp_ny_tax_credit = 0 ∧
         hpW0.gshp_federal_tax_credit = 0 ∧ hpW0.gshp_net_cost = 0 ∧ hpW0.gshp_yearly_kwh = 0 ∧
         hpW0.gshp_yearly_electrical_cost = 0 ∧ hpW0.gshp_yearly_operating_cost = 0))) :=
  ⟨hpW0_mem, zero_lt_one, zero_lt_one, zero_lt_one,
    c4_technology_isolation cfgW [] hpW0 hpW0_mem zero_lt_one zero_lt_one zero_lt_one⟩

/-- Decompose membership in the override-free scenario table. -/
theorem mem_build_scenario_nil (cfg : Config) (r : ScenRow)
    (hr : r ∈ build_scenario_table cfg []) :
    ∃ f z t b, b ∈ cfg.building ∧ b.zone = z ∧ r = mkScenRow cfg f z t b := by
  obtain ⟨f, _, h1⟩ := List.mem_flatMap.mp hr
  obtain ⟨z, _, h2⟩ := List.mem_flatMap.mp h1
  obtain ⟨t, _, h3⟩ := List.mem_flatMap.mp h2
  obtain ⟨b, hb, rfl⟩ := List.mem_map.mp h3
  have hf := List.mem_filter.mp hb
  exact ⟨f, z, t, b, hf.1, of_decide_eq_true hf.2, rfl⟩

/-- C7: in the override-free geometry table, rows sharing a zone agree on
every geometry-stage column, across fuels and technologies. -/
theorem c7_geometry_zone_invariance (cfg : Config)
    (hnd : (cfg.building.map (fun b => b.zone)).Nodup)
    (r1 r2 : GeomRow)
    (h1 : r1 ∈ compute_building_geometry cfg [])
    (h2 : r2 ∈ compute_building_geometry cfg [])
    (hz : r1.zone = r2.zone) :
    r1.wall_length_ft = r2.wall_length_ft ∧
    r1.wall_surface_area_sf = r2.wall_surface_area_sf ∧
    r1.attic_floor_area_sf = r2.attic_floor_area_sf ∧
    r1.wall_area_excl_windows_sf = r2.wall_area_excl_windows_sf ∧
    r1.window_door_area_sf = r2.window_door_area_sf ∧
    r1.above_grade_basement_wall_area_sf = r2.above_grade_basement_wall_area_sf ∧
    r1.below_grade_basement_wall_area_sf = r2.below_grade_basement_wall_area_sf ∧
    r1.basement_floor_perimeter_ft = r2.basement_floor_perimeter_ft ∧
    r1.volume_cf = r2.volume_cf := by
  obtain ⟨s1, hs1, rfl⟩ := List.mem_map.mp h1
  obtain ⟨s2, hs2, rfl⟩ := List.mem_map.mp h2
  obtain ⟨f1, z1, t1, b1, hb1, hbz1, rfl⟩ := mem_build_scenario_nil cfg s1 hs1
  obtain ⟨f2, z2, t2, b2, hb2, hbz2, rfl⟩ := mem_build_scenario_nil cfg s2 hs2
  have hzz : z1 = z2 := hz
  have hbb : b1 = b2 :=
    List.inj_on_of_nodup_map hnd hb1 hb2 (by rw [hbz1, hbz2, hzz])
  subst hbb
  exact ⟨rfl, rfl, rfl, rfl, rfl, rfl, rfl, rfl, rfl⟩

theorem geomW0_mem : geomW0 ∈ compute_building_geometry cfgW [] := by
  unfold geomW0
  rw [getElem!_pos _ _ (by decide)]
  exact List.getElem_mem _

theorem geomW1_mem : geomW1 ∈ compute_building_geometry cfgW [] := by
  unfold geomW1
  rw [getElem!_pos _ _ (by decide)]
  exact List.getElem_mem _

/-- C7 witness: the first two witness geometry rows share zone 4 and agree on
all geometry columns. -/
theorem c7_witness :
    (cfgW.building.map (fun b => b.zone)).Nodup ∧
    geomW0 ∈ compute_building_geometry cfgW [] ∧
    geomW1 ∈ compute_building_geometry cfgW [] ∧
    geomW0.zone = geomW1.zone ∧
    (geomW0.wall_length_ft = geomW1.wall_length_ft ∧
     geomW0.wall_surface_area_sf = geomW1.wall_surface_area_sf ∧
     geomW0.attic_floor_area_sf = geomW1.attic_floor_area_sf ∧
     geomW0.wall_area_excl_windows_sf = geomW1.wall_area_excl_windows_sf ∧
     geomW0.window_door_area_sf = geomW1.window_door_area_sf ∧
     geomW0.above_grade_basement_wall_area_sf = geomW1.above_grade_basement_wall_area_sf ∧
     geomW0.below_grade_basement_wall_area_sf = geomW1.below_grade_basement_wall_area_sf ∧
     geomW0.basement_floor_perimeter_ft = geomW1.basement_floor_perimeter_ft ∧
     geomW0.volume_cf = geomW1.volume_cf) :=
  ⟨by decide, geomW0_mem, geomW1_mem, rfl,
    c7_geometry_zone_invariance cfgW (by decide) geomW0 geomW1 geomW0_mem geomW1_mem rfl⟩

/-- Changing only the configured furnace AFUE maps the scenario table
row-by-row to the same table with the furnace_afue column replaced. -/
theorem build_afue (cfg : Config) (a : ℝ) :
    build_scenario_table (cfg.withAfue a) [] =
      (build_scenario_table cfg []).map (fun s => { s with furnace_afue := a }) := by
  unfold build_scenario_table _apply_overrides
  simp only [List.foldl_nil, List.map_flatMap, List.map_map]
  rfl

/-- AFUE replacement commutes with the geometry stage. -/
theorem geom_afue (cfg : Config) (a : ℝ) :
    compute_building_geometry (cfg.withAfue a) [] =
      (compute_building_geometry cfg []).map (fun g => { g with furnace_afue := a }) := by
  unfold compute_building_geometry
  rw [build_afue, List.map_map, List.map_map]
  rfl

/-- AFUE replacement commutes with the heat-loss stage. -/
theorem heat_loss_afue (cfg : Config) (a : ℝ) :
    compute_heat_loss_rates (cfg.withAfue a) [] =
      (compute_heat_loss_rates cfg []).map (fun h => { h with furnace_afue := a }) := by
  unfold compute_heat_loss_rates
  rw [geom_afue, List.map_map, List.map_map]
  rfl

/-- AFUE replacement commutes with the yearly-BTU stage. -/
theorem btu_afue (cfg : Config) (a : ℝ) :
    compute_yearly_btu (cfg.withAfue a) [] =
      (compute_yearly_btu cfg []).map (fun r => { r with furnace_afue := a }) := by
  unfold compute_yearly_btu
  rw [heat_loss_afue, List.map_map, List.map_map]
  rfl

/-- AFUE replacement commutes with the sizing stage. -/
theorem sizing_afue (cfg : Config) (a : ℝ) :
    compute_system_sizing (cfg.withAfue a) [] =
      (compute_system_sizing cfg []).map (fun s => { s with furnace_afue := a }) := by
  unfold compute_system_sizing
  rw [btu_afue]
  rw [List.flatMap_map, List.map_flatMap]
  congr 1
  funext r
  rw [List.map_map]
  rfl

/-- In an override-free run every sizing row carries the configured AFUE. -/
theorem sizing_afue_val (cfg : Config) (r : SizingRow)
    (hr : r ∈ compute_system_sizing cfg []) : r.furnace_afue = cfg.op.furnace_afue := by
  obtain ⟨r3, h3, hm⟩ := List.mem_flatMap.mp hr
  obtain ⟨p, _, rfl⟩ := List.mem_map.mp hm
  obtain ⟨r4, h4, rfl⟩ := List.mem_map.mp h3
  obtain ⟨r5, h5, rfl⟩ := List.mem_map.mp h4
  obtain ⟨r6, h6, rfl⟩ := List.mem_map.mp h5
  obtain ⟨f, z, t, b, _, _, rfl⟩ := mem_build_scenario_nil cfg r6 h6
  rfl

theorem mkBaseline_usage (cfg : Config) (slc : List (String × ℝ)) (s : SizingRow) :
    (mkBaseline cfg slc s).furnace_yearly_fuel_usage =
      if s.fuel = "natural_gas" then
        s.yearly_btu / (s.furnace_afue * s.natural_gas_btu_per_mcf)
      else s.yearly_btu / (s.furnace_afue * s.propane_btu_per_gallon) := rfl

theorem mkBaseline_fuel_cost (cfg : Config) (slc : List (String × ℝ)) (s : SizingRow) :
    (mkBaseline cfg slc s).furnace_yearly_fuel_cost =
      (mkBaseline cfg slc s).furnace_yearly_fuel_usage * s.fuel_price := rfl

theorem mkBaseline_btu (cfg : Config) (slc : List (String × ℝ)) (s : SizingRow) :
    (mkBaseline cfg slc s).yearly_btu = s.yearly_btu := rfl

theorem mkBaseline_ng (cfg : Config) (slc : List (String × ℝ)) (s : SizingRow) :
    (mkBaseline cfg slc s).natural_gas_btu_per_mcf = s.natural_gas_btu_per_mcf := rfl

theorem mkBaseline_pg (cfg : Config) (slc : List (String × ℝ)) (s : SizingRow) :
    (mkBaseline cfg slc s).propane_btu_per_gallon = s.propane_btu_per_gallon := rfl

theorem mkBaseline_price (cfg : Config) (slc : List (String × ℝ)) (s : SizingRow) :
    (mkBaseline cfg slc s).fuel_price = s.fuel_price := rfl

theorem upd_afue_fuel (s : SizingRow) (a : ℝ) :
    ({ s with furnace_afue := a } : SizingRow).fuel = s.fuel := rfl

theorem upd_afue_btu (s : SizingRow) (a : ℝ) :
    ({ s with furnace_afue := a } : SizingRow).yearly_btu = s.yearly_btu := rfl

theorem upd_afue_ng (s : SizingRow) (a : ℝ) :
    ({ s with furnace_afue := a } : SizingRow).natural_gas_btu_per_mcf =
      s.natural_gas_btu_per_mcf := rfl

theorem upd_afue_pg (s : SizingRow) (a : ℝ) :
    ({ s with furnace_afue := a } : SizingRow).propane_btu_per_gallon =
      s.propane_btu_per_gallon := rfl

theorem upd_afue_price (s : SizingRow) (a : ℝ) :
    ({ s with furnace_afue := a } : SizingRow).fuel_price = s.fuel_price := rfl

theorem upd_afue_afue (s : SizingRow) (a : ℝ) :
    ({ s with furnace_afue := a } : SizingRow).furnace_afue = a := rfl

set_option maxHeartbeats 2000000 in
/-- C8: lowering the configured furnace AFUE from 0.95 to 0.92, all else
fixed, strictly increases furnace yearly fuel usage and fuel cost on every
row with positive heating demand, fuel energy content and fuel price. -/
theorem c8_afue_monotonicity (cfg : Config) (h95 : cfg.op.furnace_afue = 0.95)
    (i : ℕ) (hi : i < (compute_baseline_costs cfg []).length)
    (hi' : i < (compute_baseline_costs (cfg.withAfue 0.92) []).length)
    (hbtu : 0 < ((compute_baseline_costs cfg []).get ⟨i, hi⟩).yearly_btu)
    (hng : 0 < ((compute_baseline_costs cfg []).get ⟨i, hi⟩).natural_gas_btu_per_mcf)
    (hpg : 0 < ((compute_baseline_costs cfg []).get ⟨i, hi⟩).propane_btu_per_gallon)
    (hfp : 0 < ((compute_baseline_costs cfg []).get ⟨i, hi⟩).fuel_price) :
    ((compute_baseline_costs cfg []).get ⟨i, hi⟩).furnace_yearly_fuel_usage <
      ((compute_baseline_costs (cfg.withAfue 0.92) []).get ⟨i, hi'⟩).furnace_yearly_fuel_usage ∧
    ((compute_baseline_costs cfg []).get ⟨i, hi⟩).furnace_yearly_fuel_cost <
      ((compute_baseline_costs (cfg.withAfue 0.92) []).get ⟨i, hi'⟩).furnace_yearly_fuel_cost := by
  have hs : i < (compute_system_sizing cfg []).length := by
    simpa [compute_baseline_costs] using hi
  set s := (compute_system_sizing cfg []).get ⟨i, hs⟩ with hsdef
  have hset : (compute_baseline_costs cfg []).get ⟨i, hi⟩ =
      mkBaseline cfg (_compute_zone_service_line_costs cfg) s := by
    simp [compute_baseline_costs, hsdef]
  have hset' : (compute_baseline_costs (cfg.withAfue 0.92) []).get ⟨i, hi'⟩ =
      mkBaseline (cfg.withAfue 0.92)
        (_compute_zone_service_line_costs (cfg.withAfue 0.92))
        { s with furnace_afue := 0.92 } := by
    have h1 : compute_baseline_costs (cfg.withAfue 0.92) [] =
        (compute_system_sizing cfg []).map
          (fun s0 => mkBaseline (cfg.withAfue 0.92)
            (_compute_zone_service_line_costs (cfg.withAfue 0.92))
            { s0 with furnace_afue := 0.92 }) := by
      unfold compute_baseline_costs
      rw [sizing_afue, List.map_map]
      rfl
    simp [h1, hsdef]
  have hafue : s.furnace_afue = 0.95 := by
    rw [sizing_afue_val cfg s (hsdef ▸ List.get_mem _ _ _), h95]
  rw [hset, mkBaseline_btu] at hbtu
  rw [hset, mkBaseline_ng] at hng
  rw [hset, mkBaseline_pg] at hpg
  rw [hset, mkBaseline_price] at hfp
  rw [hset, hset', mkBaseline_fuel_cost, mkBaseline_fuel_cost,
    mkBaseline_usage, mkBaseline_usage,
    upd_afue_fuel, upd_afue_btu, upd_afue_ng, upd_afue_pg, upd_afue_price,
    upd_afue_afue, hafue]
  have husage :
      (if s.fuel = "natural_gas" then
        s.yearly_btu / (0.95 * s.natural_gas_btu_per_mcf)
      else s.yearly_btu / (0.95 * s.propane_btu_per_gallon)) <
      (if s.fuel = "natural_gas" then
        s.yearly_btu / (0.92 * s.natural_gas_btu_per_mcf)
      else s.yearly_btu / (0.92 * s.propane_btu_per_gallon)) := by
    by_cases hf : s.fuel = "natural_gas"
    · rw [if_pos hf, if_pos hf]
      refine div_lt_div_of_pos_left hbtu (by positivity) ?_
      exact mul_lt_mul_of_pos_right (by norm_num) hng
    · rw [if_neg hf, if_neg hf]
      refine div_lt_div_of_pos_left hbtu (by positivity) ?_
      exact mul_lt_mul_of_pos_right (by norm_num) hpg
  exact ⟨husage, mul_lt_mul_of_pos_right husage hfp⟩

theorem c8_simp_btu :
    0 < ((compute_baseline_costs cfgW []).get ⟨0, by decide⟩).yearly_btu := by
  simp [compute_baseline_costs, compute_system_sizing, compute_yearly_btu,
    compute_heat_loss_rates, compute_building_geometry, build_scenario_table,
    _apply_overrides, mkScenRow, mkGeom, mkHeatLoss, mkBtu, mkSizing, mkBaseline,
    cfgW, _compute_zone_design_temps, _compute_zone_service_line_costs,
    distinctKeys, fuelsL, zonesL, techsL, Real.sqrt_one, List.get_eq_getElem]

/-- C8 witness: at the witness configuration the first scenario row satisfies
the positivity hypotheses and both furnace fuel figures strictly increase when
the AFUE drops from 0.95 to 0.92. -/
theorem c8_witness :
    cfgW.op.furnace_afue = 0.95 ∧
    0 < blW0.yearly_btu ∧ 0 < blW0.natural_gas_btu_per_mcf ∧
    0 < blW0.propane_btu_per_gallon ∧ 0 < blW0.fuel_price ∧
    blW0.furnace_yearly_fuel_usage < blW0lo.furnace_yearly_fuel_usage ∧
    blW0.furnace_yearly_fuel_cost < blW0lo.furnace_yearly_fuel_cost := by
  have h0 : (0:ℕ) < (compute_baseline_costs cfgW []).length := by decide
  have h0lo : (0:ℕ) < (compute_baseline_costs (cfgW.withAfue 0.92) []).length := by decide
  have e0 : blW0 = (compute_baseline_costs cfgW []).get ⟨0, h0⟩ := by
    unfold blW0
    rw [getElem!_pos _ _ (by decide)]
    simp [List.get_eq_getElem]
  have e0lo : blW0lo = (compute_baseline_costs (cfgW.withAfue 0.92) []).get ⟨0, h0lo⟩ := by
    unfold blW0lo
    rw [getElem!_pos _ _ (by decide)]
    simp [List.get_eq_getElem]
  have hbtu := c8_simp_btu
  have hng : 0 < ((compute_baseline_costs cfgW []).get ⟨0, h0⟩).natural_gas_btu_per_mcf :=
    zero_lt_one
  have hpg : 0 < ((compute_baseline_costs cfgW []).get ⟨0, h0⟩).propane_btu_per_gallon :=
    zero_lt_one
  have hfp : 0 < ((compute_baseline_costs cfgW []).get ⟨0, h0⟩).fuel_price := zero_lt_one
  obtain ⟨hu, hc⟩ := c8_afue_monotonicity cfgW rfl 0 h0 h0lo hbtu hng hpg hfp
  rw [e0, e0lo]
  exact ⟨rfl, hbtu, hng, hpg, hfp, hu, hc⟩

theorem dfOverrideCol_as_map (f z c : String) (v : Val) (df : DF) :
    dfOverrideCol f z c v df =
      { cols := df.cols, rows := df.rows.map (fun r => dfRowStep df.cols f z r (c, v)) } := by
  unfold dfOverrideCol dfRowStep
  split
  · rfl
  · cases df
    simp

theorem dfEntry_as_map (e : (String × String) × List (String × Val)) (df : DF) :
    e.2.foldl (fun d2 p => dfOverrideCol e.1.1 e.1.2 p.1 p.2 d2) df =
      { cols := df.cols, rows := df.rows.map (dfRowEntry df.cols e) } := by
  obtain ⟨⟨f, z⟩, ps⟩ := e
  induction ps generalizing df with
  | nil =>
    cases df
    simp only [List.foldl_nil, DF.mk.injEq, true_and]
    exact (List.map_id _).symm
  | cons p ps ih =>
    rw [List.foldl_cons]
    have h1 : dfOverrideCol f z p.1 p.2 df =
        { cols := df.cols, rows := df.rows.map (fun r => dfRowStep df.cols f z r p) } := by
      have := dfOverrideCol_as_map f z p.1 p.2 df
      simpa using this
    rw [h1, ih]
    simp only [List.map_map]
    rfl

theorem dfApplyOverrides_as_map (ov : DFOverrides) (df : DF) :
    dfApplyOverrides ov df =
      { cols := df.cols, rows := df.rows.map (dfRowTransform df.cols ov) } := by
  induction ov generalizing df with
  | nil =>
    cases df
    simp only [dfApplyOverrides, dfRowTransform, List.foldl_nil, DF.mk.injEq, true_and]
    exact (List.map_id _).symm
  | cons e ovt ih =>
    show dfApplyOverrides ovt (e.2.foldl (fun d2 p => dfOverrideCol e.1.1 e.1.2 p.1 p.2 d2) df) = _
    rw [dfEntry_as_map, ih]
    simp only [List.map_map]
    rfl

theorem dfRowStep_preserves (cols : List String) (f z : String) (r : String → Val)
    (p : String × Val) (c : String) (hc : p.1 ≠ c) :
    dfRowStep cols f z r p c = r c := by
  unfold dfRowStep
  split
  · simp [Ne.symm hc]
  · rfl

theorem dfRowEntry_preserves (cols : List String)
    (e : (String × String) × List (String × Val)) (r : String → Val) (c : String)
    (hc : ∀ p ∈ e.2, p.1 ≠ c) :
    dfRowEntry cols e r c = r c := by
  obtain ⟨⟨f, z⟩, ps⟩ := e
  unfold dfRowEntry
  simp only at hc
  induction ps generalizing r with
  | nil => rfl
  | cons p ps ih =>
    rw [List.foldl_cons]
    have h1 := ih (dfRowStep cols f z r p) (fun q hq => hc q (List.mem_cons_of_mem p hq))
    rw [h1]
    exact dfRowStep_preserves cols f z r p c (hc p (List.mem_cons_self p ps))

theorem dfRowEntry_matches (cols : List String)
    (e : (String × String) × List (String × Val)) (r : String → Val) (f2 z2 : String)
    (hids : ∀ p ∈ e.2, p.1 ≠ "fuel" ∧ p.1 ≠ "zone") :
    rowMatches (dfRowEntry cols e r) f2 z2 = rowMatches r f2 z2 := by
  unfold rowMatches
  rw [dfRowEntry_preserves cols e r "fuel" (fun p hp => (hids p hp).1),
    dfRowEntry_preserves cols e r "zone" (fun p hp => (hids p hp).2)]

theorem dfRowEntry_nomatch (cols : List String)
    (e : (String × String) × List (String × Val)) (r : String → Val)
    (hm : rowMatches r e.1.1 e.1.2 = false) :
    dfRowEntry cols e r = r := by
  obtain ⟨⟨f, z⟩, ps⟩ := e
  unfold dfRowEntry
  simp only at hm ⊢
  induction ps generalizing r with
  | nil => rfl
  | cons p ps ih =>
    rw [List.foldl_cons]
    have hstep : dfRowStep cols f z r p = r := by
      unfold dfRowStep
      split
      · funext c2
        by_cases h2 : c2 = p.1
        · rw [if_pos h2, hm]
          simp [h2]
        · rw [if_neg h2]
      · rfl
    rw [hstep, ih r hm]

theorem dfRowTransform_nomatch (cols : List String) (ov : DFOverrides)
    (r : String → Val) (hm : ∀ e ∈ ov, rowMatches r e.1.1 e.1.2 = false) :
    dfRowTransform cols ov r = r := by
  unfold dfRowTransform
  induction ov with
  | nil => rfl
  | cons e ovt ih =>
    rw [List.foldl_cons, dfRowEntry_nomatch cols e r (hm e (List.mem_cons_self e ovt))]
    exact ih (fun e2 h2 => hm e2 (List.mem_cons_of_mem e h2))

theorem dfRowEntry_char (cols : List String)
    (e : (String × String) × List (String × Val)) (r : String → Val) (c : String)
    (hm : rowMatches r e.1.1 e.1.2 = true)
    (hnd : (e.2.map (fun p => p.1)).Nodup)
    (hids : ∀ p ∈ e.2, p.1 ≠ "fuel" ∧ p.1 ≠ "zone") :
    dfRowEntry cols e r c =
      (if c ∈ cols then (e.2.find? (fun p => p.1 = c)).map (fun p => p.2)
       else none).getD (r c) := by
  obtain ⟨⟨f, z⟩, ps⟩ := e
  simp only at hm hnd hids ⊢
  induction ps generalizing r with
  | nil =>
    simp [dfRowEntry]
  | cons p ps ih =>
    have hids' : ∀ q ∈ ps, q.1 ≠ "fuel" ∧ q.1 ≠ "zone" :=
      fun q hq => hids q (List.mem_cons_of_mem p hq)
    have hnd' : (ps.map (fun q => q.1)).Nodup := (List.nodup_cons.mp hnd).2
    have hrec : dfRowEntry cols ((f, z), p :: ps) r =
        dfRowEntry cols ((f, z), ps) (dfRowStep cols f z r p) := rfl
    have hm' : rowMatches (dfRowStep cols f z r p) f z = rowMatches r f z := by
      unfold rowMatches
      rw [dfRowStep_preserves cols f z r p "fuel" (hids p (List.mem_cons_self p ps)).1,
        dfRowStep_preserves cols f z r p "zone" (hids p (List.mem_cons_self p ps)).2]
    rw [hrec, ih (dfRowStep cols f z r p) (by rw [hm', hm]) hnd' hids']
    by_cases hcp : p.1 = c
    · have hfind : (p :: ps).find? (fun q => decide (q.1 = c)) = some p := by
        simp [List.find?_cons, hcp]
      have hnotin : ∀ q ∈ ps, ¬ (q.1 = c) := by
        intro q hq
        have : p.1 ∉ ps.map (fun q2 => q2.1) := (List.nodup_cons.mp hnd).1
        intro hqc
        exact this (hcp ▸ hqc ▸ List.mem_map_of_mem _ hq)
      have hfind' : ps.find? (fun q => decide (q.1 = c)) = none := by
        rw [List.find?_eq_none]
        intro q hq
        simpa using hnotin q hq
      rw [hfind, hfind']
      by_cases hin : c ∈ cols
      · simp only [if_pos hin, Option.map_none, Option.getD_none, Option.map_some]
        have : dfRowStep cols f z r p c = p.2 := by
          unfold dfRowStep
          rw [if_pos (hcp ▸ hin)]
          simp [hcp, hm]
        rw [this]
        simp
      · simp only [if_neg hin, Option.getD_none]
        have : dfRowStep cols f z r p c = r c := by
          unfold dfRowStep
          split
        
          · exact absurd (hcp ▸ ‹p.1 ∈ cols›) hin
          · rfl
        rw [this]
    · have hfind : (p :: ps).find? (fun q => decide (q.1 = c)) =
          ps.find? (fun q => decide (q.1 = c)) := by
        simp [List.find?_cons, hcp]
      rw [hfind, dfRowStep_preserves cols f z r p c hcp]

theorem findSome?_none_of_nomatch (ov : DFOverrides) (r : String → Val) (c : String)
    (hm : ∀ e ∈ ov, rowMatches r e.1.1 e.1.2 = false) :
    (ov.findSome? (fun e =>
      if rowMatches r e.1.1 e.1.2 then
        (e.2.find? (fun p => p.1 = c)).map (fun p => p.2)
      else none)) = none := by
  induction ov with
  | nil => rfl
  | cons e ovt ih =>
    rw [List.findSome?_cons]
    rw [hm e (List.mem_cons_self e ovt)]
    simp only [Bool.false_eq_true, if_false]
    exact ih (fun e2 h2 => hm e2 (List.mem_cons_of_mem e h2))

theorem dfRowTransform_char (cols : List String) (ov : DFOverrides)
    (r : String → Val) (c : String)
    (hkeys : (ov.map (fun e => e.1)).Nodup)
    (hnd : ∀ e ∈ ov, (e.2.map (fun p => p.1)).Nodup)
    (hids : ∀ e ∈ ov, ∀ p ∈ e.2, p.1 ≠ "fuel" ∧ p.1 ≠ "zone") :
    dfRowTransform cols ov r c = (specOverrideValue cols ov r c).getD (r c) := by
  induction ov generalizing r with
  | nil =>
    unfold dfRowTransform specOverrideValue
    simp
  | cons e ovt ih =>
    have hids0 : ∀ p ∈ e.2, p.1 ≠ "fuel" ∧ p.1 ≠ "zone" :=
      hids e (List.mem_cons_self e ovt)
    have hids' : ∀ e2 ∈ ovt, ∀ p ∈ e2.2, p.1 ≠ "fuel" ∧ p.1 ≠ "zone" :=
      fun e2 h2 => hids e2 (List.mem_cons_of_mem e h2)
    have hnd' : ∀ e2 ∈ ovt, (e2.2.map (fun p => p.1)).Nodup :=
      fun e2 h2 => hnd e2 (List.mem_cons_of_mem e h2)
    have hkeys' : (ovt.map (fun e2 => e2.1)).Nodup := (List.nodup_cons.mp hkeys).2
    have hrec : dfRowTransform cols (e :: ovt) r =
        dfRowTransform cols ovt (dfRowEntry cols e r) := rfl
    rw [hrec]
    by_cases hm : rowMatches r e.1.1 e.1.2 = true
    · -- the unique matching entry; later entries cannot match
      have hlater : ∀ e2 ∈ ovt, rowMatches r e2.1.1 e2.1.2 = false := by
        intro e2 h2
        by_contra hne
        have hm2 : rowMatches r e2.1.1 e2.1.2 = true := by
          cases h : rowMatches r e2.1.1 e2.1.2
          · exact absurd h hne
          · rfl
        have hf1 : (r "fuel").isStr e.1.1 = true := (Bool.and_eq_true_iff.mp hm).1
        have hz1 : (r "zone").isStr e.1.2 = true := (Bool.and_eq_true_iff.mp hm).2
        have hf2 : (r "fuel").isStr e2.1.1 = true := (Bool.and_eq_true_iff.mp hm2).1
        have hz2 : (r "zone").isStr e2.1.2 = true := (Bool.and_eq_true_iff.mp hm2).2
        have hkey : e2.1 = e.1 := by
          cases hrf : r "fuel" with
          | str sf =>
            cases hrz : r "zone" with
            | str sz =>
              rw [hrf] at hf1 hf2
              rw [hrz] at hz1 hz2
              simp [Val.isStr] at hf1 hf2 hz1 hz2
              have : e2.1.1 = e.1.1 := by rw [← hf2, ← hf1]
              have h2z : e2.1.2 = e.1.2 := by rw [← hz2, ← hz1]
              exact Prod.ext this h2z
            | num x =>
              rw [hrz] at hz1
              simp [Val.isStr] at hz1
          | num x =>
            rw [hrf] at hf1
            simp [Val.isStr] at hf1
        have : e.1 ∉ ovt.map (fun e2 => e2.1) := (List.nodup_cons.mp hkeys).1
        exact this (hkey ▸ List.mem_map_of_mem _ h2)
      have hlater' : ∀ e2 ∈ ovt,
          rowMatches (dfRowEntry cols e r) e2.1.1 e2.1.2 = false := by
        intro e2 h2
        rw [dfRowEntry_matches cols e r e2.1.1 e2.1.2 hids0]
        exact hlater e2 h2
      rw [dfRowTransform_nomatch cols ovt (dfRowEntry cols e r) hlater']
      rw [dfRowEntry_char cols e r c hm
        (hnd e (List.mem_cons_self e ovt)) hids0]
      unfold specOverrideValue
      by_cases hin : c ∈ cols
      · rw [if_pos hin, if_pos hin, List.findSome?_cons, hm]
        simp only [if_true]
        cases hfind : (e.2.find? (fun p => p.1 = c)).map (fun p => p.2) with
        | none =>
          rw [findSome?_none_of_nomatch ovt r c hlater]
        | some v => simp
      · rw [if_neg hin, if_neg hin]
    · have hm0 : rowMatches r e.1.1 e.1.2 = false := by
        cases h : rowMatches r e.1.1 e.1.2
        · rfl
        · exact absurd h hm
      rw [dfRowEntry_nomatch cols e r hm0]
      rw [ih r hkeys' hnd' hids']
      unfold specOverrideValue
      by_cases hin : c ∈ cols
      · rw [if_pos hin, if_pos hin, List.findSome?_cons, hm0]
        simp only [Bool.false_eq_true, if_false]
      · rw [if_neg hin, if_neg hin]

/-- C2 counterexample: with the mapping that first renames the matching row's
fuel to "b" and then overrides the present column "x", the matching row does
not receive the override value for "x" (the mask is re-evaluated against the
already-rewritten fuel column), contradicting the claim as stated. -/
theorem c2_counterexample :
    (dfC.rows.getD 0 blankRow) "fuel" = Val.str "a" ∧
    (dfC.rows.getD 0 blankRow) "zone" = Val.str "z" ∧
    "x" ∈ dfC.cols ∧
    ovC.map (fun e => e.1) = [("a", "z")] ∧
    (ovC.getD 0 (("", ""), [])).2.find? (fun p => p.1 = "x") = some ("x", Val.num 1) ∧
    ((dfApplyOverrides ovC dfC).rows.getD 0 blankRow) "x" = Val.num 0 ∧
    ((dfApplyOverrides ovC dfC).rows.getD 0 blankRow) "x" ≠ Val.num 1 := by
  refine ⟨rfl, rfl, by decide, rfl, rfl, rfl, ?_⟩
  intro h
  have : (0 : ℝ) = 1 := by
    have h2 : Val.num 0 = Val.num 1 := h
    exact Val.num.inj h2
  exact zero_ne_one this

/-- C2 amended: the override contract as claimed (each named column present in
the table is replaced by the override value on the rows whose fuel and zone
equal the key; everything else, including keys matching no row and names not
present, changes nothing) holds provided no override entry names the fuel or
zone columns themselves. -/
theorem c2_apply_overrides_contract (df : DF) (ov : DFOverrides)
    (hf : "fuel" ∈ df.cols) (hz : "zone" ∈ df.cols)
    (hkeys : (ov.map (fun e => e.1)).Nodup)
    (hnd : ∀ e ∈ ov, (e.2.map (fun p => p.1)).Nodup)
    (hids : ∀ e ∈ ov, ∀ p ∈ e.2, p.1 ≠ "fuel" ∧ p.1 ≠ "zone") :
    (dfApplyOverrides ov df).cols = df.cols ∧
    (dfApplyOverrides ov df).rows =
      df.rows.map (fun r => fun c => (specOverrideValue df.cols ov r c).getD (r c)) := by
  rw [dfApplyOverrides_as_map]
  refine ⟨rfl, ?_⟩
  refine List.map_congr_left fun r _ => ?_
  funext c
  exact dfRowTransform_char df.cols ov r c hkeys hnd hids

/-- C2 witness: the amended contract applied to the concrete one-row table and
a well-behaved one-entry mapping. -/
theorem c2_witness :
    ("fuel" ∈ dfC.cols ∧ "zone" ∈ dfC.cols ∧
     (ovW.map (fun e => e.1)).Nodup ∧
     (∀ e ∈ ovW, (e.2.map (fun p => p.1)).Nodup) ∧
     (∀ e ∈ ovW, ∀ p ∈ e.2, p.1 ≠ "fuel" ∧ p.1 ≠ "zone")) ∧
    ((dfApplyOverrides ovW dfC).cols = dfC.cols ∧
     (dfApplyOverrides ovW dfC).rows =
       dfC.rows.map (fun r => fun c => (specOverrideValue dfC.cols ovW r c).getD (r c))) :=
  ⟨⟨by decide, by decide, by decide, by decide, by decide⟩,
    c2_apply_overrides_contract dfC ovW (by decide) (by decide) (by decide)
      (by decide) (by decide)⟩

theorem apply_single_hp (f z c : String) (v : ℝ) (rows : List HpRow) (hc : c ∈ hpCols) :
    _apply_overrides hpCols (fun r => r.fuel) (fun r => r.zone) HpRow.setCol
      [((f, z), [(c, v)])] rows =
      rows.map (fun r => if r.fuel = f ∧ r.zone = z then HpRow.setCol c v r else r) := by
  unfold _apply_overrides _apply_override_entry _apply_override_param
  simp [hc]

theorem apply_single_scen (f z c : String) (v : ℝ) (rows : List ScenRow)
    (hc : c ∈ scenCols) :
    _apply_overrides scenCols (fun r => r.fuel) (fun r => r.zone) ScenRow.setCol
      [((f, z), [(c, v)])] rows =
      rows.map (fun r => if r.fuel = f ∧ r.zone = z then ScenRow.setCol c v r else r) := by
  unfold _apply_overrides _apply_override_entry _apply_override_param
  simp [hc]

theorem hp_setCol_hp_equipment_total (v : ℝ) (r : HpRow) :
    HpRow.setCol "hp_equipment_total" v r = { r with hp_equipment_total := v } := rfl

theorem hp_setCol_furnace_afue (v : ℝ) (r : HpRow) :
    HpRow.setCol "furnace_afue" v r = { r with furnace_afue := v } := rfl

theorem scen_setCol_furnace_afue (v : ℝ) (r : ScenRow) :
    ScenRow.setCol "furnace_afue" v r = { r with furnace_afue := v } := rfl

theorem scen_eta_afue (r : ScenRow) (v : ℝ) (h : r.furnace_afue = v) :
    ({ r with furnace_afue := v } : ScenRow) = r := by
  cases r
  subst h
  rfl

theorem geom_eta_afue (r : GeomRow) (v : ℝ) (h : r.furnace_afue = v) :
    ({ r with furnace_afue := v } : GeomRow) = r := by
  cases r
  rw [scen_eta_afue _ _ h]

theorem heat_loss_eta_afue (r : HeatLossRow) (v : ℝ) (h : r.furnace_afue = v) :
    ({ r with furnace_afue := v } : HeatLossRow) = r := by
  cases r
  rw [geom_eta_afue _ _ h]

theorem btu_eta_afue (r : BtuRow) (v : ℝ) (h : r.furnace_afue = v) :
    ({ r with furnace_afue := v } : BtuRow) = r := by
  cases r
  rw [heat_loss_eta_afue _ _ h]

theorem sizing_eta_afue (r : SizingRow) (v : ℝ) (h : r.furnace_afue = v) :
    ({ r with furnace_afue := v } : SizingRow) = r := by
  cases r
  rw [btu_eta_afue _ _ h]

theorem baseline_eta_afue (r : BaselineRow) (v : ℝ) (h : r.furnace_afue = v) :
    ({ r with furnace_afue := v } : BaselineRow) = r := by
  cases r
  rw [sizing_eta_afue _ _ h]

theorem hp_eta_afue (r : HpRow) (v : ℝ) (h : r.furnace_afue = v) :
    ({ r with furnace_afue := v } : HpRow) = r := by
  cases r
  rw [baseline_eta_afue _ _ h]

/-- Rows of the heat-pump-cost stage matching a furnace_afue override's key
carry the overridden AFUE value. -/
theorem hp_afue_override (cfg : Config) (f z : String) (v : ℝ) (r : HpRow)
    (hr : r ∈ compute_heat_pump_costs cfg [((f, z), [("furnace_afue", v)])])
    (hf : r.fuel = f) (hz : r.zone = z) : r.furnace_afue = v := by
  obtain ⟨b, hb, rfl⟩ := List.mem_map.mp hr
  obtain ⟨s, hs, rfl⟩ := List.mem_map.mp hb
  obtain ⟨r3, h3, hm⟩ := List.mem_flatMap.mp hs
  obtain ⟨p, _, rfl⟩ := List.mem_map.mp hm
  obtain ⟨r4, h4, rfl⟩ := List.mem_map.mp h3
  obtain ⟨r5, h5, rfl⟩ := List.mem_map.mp h4
  obtain ⟨r6, h6, rfl⟩ := List.mem_map.mp h5
  rw [show build_scenario_table cfg [((f, z), [("furnace_afue", v)])] =
      _apply_overrides scenCols (fun r => r.fuel) (fun r => r.zone) ScenRow.setCol
        [((f, z), [("furnace_afue", v)])]
        (fuelsL.flatMap fun f0 => zonesL.flatMap fun z0 => techsL.flatMap fun t0 =>
          (cfg.building.filter (fun b0 => b0.zone = z0)).map (mkScenRow cfg f0 z0 t0))
      from rfl, apply_single_scen f z "furnace_afue" v _ (by decide)] at h6
  obtain ⟨r7, _, rfl⟩ := List.mem_map.mp h6
  have hgf : (if r7.fuel = f ∧ r7.zone = z then
      ScenRow.setCol "furnace_afue" v r7 else r7).fuel = r7.fuel := by
    by_cases hcnd : r7.fuel = f ∧ r7.zone = z <;>
      simp [hcnd, scen_setCol_furnace_afue]
  have hgz : (if r7.fuel = f ∧ r7.zone = z then
      ScenRow.setCol "furnace_afue" v r7 else r7).zone = r7.zone := by
    by_cases hcnd : r7.fuel = f ∧ r7.zone = z <;>
      simp [hcnd, scen_setCol_furnace_afue]
  have hf7 : r7.fuel = f := by
    rw [← hgf]
    exact hf
  have hz7 : r7.zone = z := by
    rw [← hgz]
    exact hz
  have hcond : r7.fuel = f ∧ r7.zone = z := ⟨hf7, hz7⟩
  show (if r7.fuel = f ∧ r7.zone = z then
    ScenRow.setCol "furnace_afue" v r7 else r7).furnace_afue = v
  rw [if_pos hcond, scen_setCol_furnace_afue]

/-- C9: compute_savings re-applies overrides after the cost stages.  An entry
naming hp_equipment_total (a column that first exists after the cost stages)
is written into matching rows before any savings column is computed, so every
savings column derives from the overridden value; an entry naming a column
already present in the scenario table (furnace_afue) rewrites the value those
rows already carry, leaving the result identical to the stage without the
second application. -/
theorem c9_second_override_application (cfg : Config) (f z : String) (v : ℝ) :
    (∀ r ∈ compute_savings cfg [((f, z), [("hp_equipment_total", v)])],
      r.fuel = f → r.zone = z →
        r.hp_equipment_total = v ∧
        r.construction_savings = r.baseline_equipment_total - v ∧
        r.construction_savings_with_service_line =
          r.baseline_equipment_with_service_line - v ∧
        r.mortgage_savings =
          pmt r.mortgage_rate r.mortgage_term_years r.baseline_equipment_total -
            pmt r.mortgage_rate r.mortgage_term_years v ∧
        r.mortgage_savings_with_service_line =
          pmt r.mortgage_rate r.mortgage_term_years r.baseline_equipment_with_service_line -
            pmt r.mortgage_rate r.mortgage_term_years v ∧
        r.operating_savings = r.baseline_yearly_operating - r.hp_yearly_operating_total ∧
        r.total_yearly_savings = r.mortgage_savings + r.operating_savings ∧
        r.total_yearly_savings_with_service_line =
          r.mortgage_savings_with_service_line + r.operating_savings ∧
        r.present_value_15yr =
          r.total_yearly_savings_with_service_line *
            annuityFactor r.discount_rate r.analysis_period_years) ∧
    compute_savings cfg [((f, z), [("furnace_afue", v)])] =
      (compute_heat_pump_costs cfg [((f, z), [("furnace_afue", v)])]).map mkSavings := by
  constructor
  · intro r hr hf hz
    unfold compute_savings at hr
    rw [apply_single_hp f z "hp_equipment_total" v _ (by decide), List.map_map] at hr
    obtain ⟨r2, hr2, rfl⟩ := List.mem_map.mp hr
    have hgf : (if r2.fuel = f ∧ r2.zone = z then
        HpRow.setCol "hp_equipment_total" v r2 else r2).fuel = r2.fuel := by
      by_cases hcnd : r2.fuel = f ∧ r2.zone = z <;>
        simp [hcnd, hp_setCol_hp_equipment_total]
    have hgz : (if r2.fuel = f ∧ r2.zone = z then
        HpRow.setCol "hp_equipment_total" v r2 else r2).zone = r2.zone := by
      by_cases hcnd : r2.fuel = f ∧ r2.zone = z <;>
        simp [hcnd, hp_setCol_hp_equipment_total]
    have hf2 : r2.fuel = f := by
      rw [← hgf]
      exact hf
    have hz2 : r2.zone = z := by
      rw [← hgz]
      exact hz
    simp only [Function.comp_apply]
    rw [if_pos ⟨hf2, hz2⟩, hp_setCol_hp_equipment_total]
    exact ⟨rfl, rfl, rfl, rfl, rfl, rfl, rfl, rfl, rfl⟩
  · unfold compute_savings
    rw [apply_single_hp f z "furnace_afue" v _ (by decide)]
    congr 1
    have hpt : ∀ r2 ∈ compute_heat_pump_costs cfg [((f, z), [("furnace_afue", v)])],
        (if r2.fuel = f ∧ r2.zone = z then HpRow.setCol "furnace_afue" v r2 else r2) =
          r2 := by
      intro r2 h2
      by_cases hcnd : r2.fuel = f ∧ r2.zone = z
      · rw [if_pos hcnd, hp_setCol_furnace_afue]
        exact hp_eta_afue r2 v (hp_afue_override cfg f z v r2 h2 hcnd.1 hcnd.2)
      · rw [if_neg hcnd]
    exact (List.map_congr_left hpt).trans (List.map_id _)

/-- C9 witness: the first witness row matches the override key, holds the
overridden hp_equipment_total, and the scenario-column override leaves the
savings stage equal to the plain mapped stage. -/
theorem c9_witness :
    savW0 ∈ compute_savings cfgW ovA9 ∧
    savW0.fuel = "natural_gas" ∧ savW0.zone = "4" ∧
    savW0.hp_equipment_total = 7 ∧
    compute_savings cfgW ovB9 = (compute_heat_pump_costs cfgW ovB9).map mkSavings := by
  have hmem : savW0 ∈ compute_savings cfgW ovA9 := by
    unfold savW0
    rw [getElem!_pos _ _ (by decide)]
    exact List.getElem_mem _
  have hfu : savW0.fuel = "natural_gas" := rfl
  have hzo : savW0.zone = "4" := rfl
  refine ⟨hmem, hfu, hzo, ?_, ?_⟩
  · exact ((c9_second_override_application cfgW "natural_gas" "4" 7).1
      savW0 hmem hfu hzo).1
  · exact (c9_second_override_application cfgW "natural_gas" "4" 7).2

theorem map_const_of_length_one {A T : Type} {l : List A} (h : l.length = 1) (c : T) :
    l.map (fun x => c) = [c] := by
  match l, h with
  | [x], _ => rfl

theorem distinctKeys_aux_mem (l : List String) (acc : List String) (a : String) :
    a ∈ l.foldl (fun acc2 z => if z ∈ acc2 then acc2 else acc2 ++ [z]) acc ↔
      a ∈ acc ∨ a ∈ l := by
  induction l generalizing acc with
  | nil => simp
  | cons x xs ih =>
    rw [List.foldl_cons]
    rw [ih]
    by_cases hx : x ∈ acc
    · rw [if_pos hx]
      constructor
      · intro h
        rcases h with h | h
        · exact Or.inl h
        · exact Or.inr (List.mem_cons_of_mem x h)
      · intro h
        rcases h with h | h
        · exact Or.inl h
        · rcases List.mem_cons.mp h with h2 | h2
          · exact Or.inl (h2 ▸ hx)
          · exact Or.inr h2
    · rw [if_neg hx]
      constructor
      · intro h
        rcases h with h | h
        · rcases List.mem_append.mp h with h2 | h2
          · exact Or.inl h2
          · rcases List.mem_singleton.mp h2 with h3
            exact Or.inr (h3 ▸ List.mem_cons_self x xs)
        · exact Or.inr (List.mem_cons_of_mem x h)
      · intro h
        rcases h with h | h
        · exact Or.inl (List.mem_append.mpr (Or.inl h))
        · rcases List.mem_cons.mp h with h2 | h2
          · exact Or.inl (List.mem_append.mpr (Or.inr (List.mem_singleton.mpr h2)))
          · exact Or.inr h2

theorem mem_distinctKeys (l : List String) (a : String) :
    a ∈ distinctKeys l ↔ a ∈ l := by
  unfold distinctKeys
  rw [distinctKeys_aux_mem]
  simp

theorem distinctKeys_aux_nodup (l : List String) (acc : List String) (hacc : acc.Nodup) :
    (l.foldl (fun acc2 z => if z ∈ acc2 then acc2 else acc2 ++ [z]) acc).Nodup := by
  induction l generalizing acc with
  | nil => exact hacc
  | cons x xs ih =>
    rw [List.foldl_cons]
    by_cases hx : x ∈ acc
    · rw [if_pos hx]
      exact ih acc hacc
    · rw [if_neg hx]
      refine ih _ ?_
      rw [List.nodup_append]
      exact ⟨hacc, List.nodup_singleton x, by simpa using hx⟩

theorem nodup_distinctKeys (l : List String) : (distinctKeys l).Nodup :=
  distinctKeys_aux_nodup l [] List.nodup_nil

theorem filter_eq_singleton_length (l : List String) (hnd : l.Nodup) (z : String)
    (hz : z ∈ l) : (l.filter (fun x => x = z)).length = 1 := by
  induction l with
  | nil => cases hz
  | cons x xs ih =>
    rw [List.filter_cons]
    rcases List.mem_cons.mp hz with h1 | h1
    · have hxz : (decide (x = z)) = true := by simp [h1]
      rw [hxz]
      simp only [if_true, List.length_cons]
      have hnotin : z ∉ xs := h1 ▸ (List.nodup_cons.mp hnd).1
      have : xs.filter (fun x2 => x2 = z) = [] := by
        rw [List.filter_eq_nil_iff]
        intro a ha
        simp only [decide_eq_true_eq]
        intro heq
        exact hnotin (heq ▸ ha)
      rw [this]
      rfl
    · have hne : x ≠ z := by
        intro he
        exact (List.nodup_cons.mp hnd).1 (he ▸ h1)
      have hxz : (decide (x = z)) = false := by simp [hne]
      rw [hxz]
      simp only [Bool.false_eq_true, if_false]
      exact ih (List.nodup_cons.mp hnd).2 h1

theorem flatMap_map_singleton {A B T : Type} (rows : List A) (g : A → List B)
    (pa : A → T) (pb : B → T) (h : ∀ r ∈ rows, (g r).map pb = [pa r]) :
    (rows.flatMap g).map pb = rows.map pa := by
  induction rows with
  | nil => rfl
  | cons r rs ih =>
    rw [List.flatMap_cons, List.map_append, h r (List.mem_cons_self r rs),
      ih (fun r2 h2 => h r2 (List.mem_cons_of_mem r h2))]
    rfl

theorem scen_block (cfg : Config) (f z t : String)
    (h1 : (cfg.building.filter (fun b => b.zone = z)).length = 1) :
    ((cfg.building.filter (fun b => b.zone = z)).map (mkScenRow cfg f z t)).map
      (fun r : ScenRow => (r.fuel, r.zone, r.hp_technology)) = [(f, z, t)] := by
  rw [List.map_map]
  exact map_const_of_length_one h1 (f, z, t)

/-- The scenario table's identifier triples are exactly the cross product,
for any overrides, when the building table has one row per zone. -/
theorem triples_scen (cfg : Config) (ov : Overrides)
    (hb : ∀ z ∈ zonesL, (cfg.building.filter (fun b => b.zone = z)).length = 1) :
    (build_scenario_table cfg ov).map
      (fun r : ScenRow => (r.fuel, r.zone, r.hp_technology)) = base12 := by
  unfold build_scenario_table
  rw [_apply_overrides_map_proj _ _ _ _ _ scen_setCol_ids]
  have h4 : ∀ f t, ((cfg.building.filter (fun b => b.zone = "4")).map
      (mkScenRow cfg f "4" t)).map
      (fun r : ScenRow => (r.fuel, r.zone, r.hp_technology)) = [(f, "4", t)] :=
    fun f t => scen_block cfg f "4" t (hb "4" (by decide))
  have h5 : ∀ f t, ((cfg.building.filter (fun b => b.zone = "5")).map
      (mkScenRow cfg f "5" t)).map
      (fun r : ScenRow => (r.fuel, r.zone, r.hp_technology)) = [(f, "5", t)] :=
    fun f t => scen_block cfg f "5" t (hb "5" (by decide))
  have h6 : ∀ f t, ((cfg.building.filter (fun b => b.zone = "6")).map
      (mkScenRow cfg f "6" t)).map
      (fun r : ScenRow => (r.fuel, r.zone, r.hp_technology)) = [(f, "6", t)] :=
    fun f t => scen_block cfg f "6" t (hb "6" (by decide))
  simp only [fuelsL, zonesL, techsL, List.flatMap_cons, List.flatMap_nil,
    List.append_nil, List.map_append, List.map_flatMap, h4, h5, h6]
  rfl

theorem triples_geom (cfg : Config) (ov : Overrides)
    (hb : ∀ z ∈ zonesL, (cfg.building.filter (fun b => b.zone = z)).length = 1) :
    (compute_building_geometry cfg ov).map
      (fun r : GeomRow => (r.fuel, r.zone, r.hp_technology)) = base12 := by
  unfold compute_building_geometry
  rw [List.map_map]
  exact triples_scen cfg ov hb

theorem triples_heat_loss (cfg : Config) (ov : Overrides)
    (hb : ∀ z ∈ zonesL, (cfg.building.filter (fun b => b.zone = z)).length = 1) :
    (compute_heat_loss_rates cfg ov).map
      (fun r : HeatLossRow => (r.fuel, r.zone, r.hp_technology)) = base12 := by
  unfold compute_heat_loss_rates
  rw [List.map_map]
  exact triples_geom cfg ov hb

theorem triples_btu (cfg : Config) (ov : Overrides)
    (hb : ∀ z ∈ zonesL, (cfg.building.filter (fun b => b.zone = z)).length = 1) :
    (compute_yearly_btu cfg ov).map
      (fun r : BtuRow => (r.fuel, r.zone, r.hp_technology)) = base12 := by
  unfold compute_yearly_btu
  rw [List.map_map]
  exact triples_heat_loss cfg ov hb

/-- Every zone of the cross product appears among the county zones. -/
theorem zone_temps_filter_one (cfg : Config) (z : String)
    (hc : ∃ c ∈ cfg.counties, c.zone = z) :
    ((_compute_zone_design_temps cfg).filter (fun p => p.1 = z)).length = 1 := by
  unfold _compute_zone_design_temps
  rw [List.filter_map, List.length_map]
  have heq : ((distinctKeys (cfg.counties.map (fun c => c.zone))).filter
      (fun z0 => z0 = z)).length = 1 := by
    refine filter_eq_singleton_length _ (nodup_distinctKeys _) z ?_
    rw [mem_distinctKeys]
    obtain ⟨c, hcm, hcz⟩ := hc
    exact hcz ▸ List.mem_map_of_mem _ hcm
  exact heq

theorem triples_sizing (cfg : Config) (ov : Overrides)
    (hb : ∀ z ∈ zonesL, (cfg.building.filter (fun b => b.zone = z)).length = 1)
    (hc : ∀ z ∈ zonesL, ∃ c ∈ cfg.counties, c.zone = z) :
    (compute_system_sizing cfg ov).map
      (fun r : SizingRow => (r.fuel, r.zone, r.hp_technology)) = base12 := by
  unfold compute_system_sizing
  rw [flatMap_map_singleton _ _ (fun r : BtuRow => (r.fuel, r.zone, r.hp_technology)) _ ?_]
  · exact triples_btu cfg ov hb
  · intro r hr
    have hz : r.zone ∈ zonesL := by
      have h1 : (r.fuel, r.zone, r.hp_technology) ∈ base12 := by
        rw [← triples_btu cfg ov hb]
        exact List.mem_map_of_mem _ hr
      have : ∀ x ∈ base12, x.2.1 ∈ zonesL := by decide
      exact this _ h1
    rw [List.map_map]
    exact map_const_of_length_one (zone_temps_filter_one cfg r.zone (hc r.zone hz))
      (r.fuel, r.zone, r.hp_technology)

theorem triples_baseline (cfg : Config) (ov : Overrides)
    (hb : ∀ z ∈ zonesL, (cfg.building.filter (fun b => b.zone = z)).length = 1)
    (hc : ∀ z ∈ zonesL, ∃ c ∈ cfg.counties, c.zone = z) :
    (compute_baseline_costs cfg ov).map
      (fun r : BaselineRow => (r.fuel, r.zone, r.hp_technology)) = base12 := by
  unfold compute_baseline_costs
  rw [List.map_map]
  exact triples_sizing cfg ov hb hc

theorem triples_hp (cfg : Config) (ov : Overrides)
    (hb : ∀ z ∈ zonesL, (cfg.building.filter (fun b => b.zone = z)).length = 1)
    (hc : ∀ z ∈ zonesL, ∃ c ∈ cfg.counties, c.zone = z) :
    (compute_heat_pump_costs cfg ov).map
      (fun r : HpRow => (r.fuel, r.zone, r.hp_technology)) = base12 := by
  unfold compute_heat_pump_costs
  rw [List.map_map]
  exact triples_baseline cfg ov hb hc

theorem triples_savings (cfg : Config) (ov : Overrides)
    (hb : ∀ z ∈ zonesL, (cfg.building.filter (fun b => b.zone = z)).length = 1)
    (hc : ∀ z ∈ zonesL, ∃ c ∈ cfg.counties, c.zone = z) :
    (compute_savings cfg ov).map
      (fun r : SavingsRow => (r.fuel, r.zone, r.hp_technology)) = base12 := by
  unfold compute_savings
  rw [List.map_map]
  rw [show ((fun r : SavingsRow => (r.fuel, r.zone, r.hp_technology)) ∘ mkSavings) =
    (fun r : HpRow => (r.fuel, r.zone, r.hp_technology)) from rfl]
  rw [_apply_overrides_map_proj _ _ _ _ _ hp_setCol_ids]
  exact triples_hp cfg ov hb hc

theorem survey_filter_one (sv : List SurveyRow) (f z : String)
    (hf : f ∈ fuelsL) (hz : z ∈ zonesL) :
    ((_compute_survey_weights sv).filter
      (fun w => w.fuel = f ∧ w.zone = z)).length = 1 := by
  fin_cases hf <;> fin_cases hz <;>
    simp [_compute_survey_weights, zonesL]

theorem zone_shares_filter_one (cfg : Config) (z : String)
    (hc : ∃ c ∈ cfg.counties, c.zone = z) :
    ((_compute_zone_new_construction_shares cfg).filter (fun p => p.1 = z)).length = 1 := by
  unfold _compute_zone_new_construction_shares
  rw [List.filter_map, List.length_map]
  refine filter_eq_singleton_length _ (nodup_distinctKeys _) z ?_
  rw [mem_distinctKeys]
  obtain ⟨c, hcm, hcz⟩ := hc
  exact hcz ▸ List.mem_map_of_mem _ hcm

/-- The aggregation-stage scenario rows' identifier triples are exactly the
cross product. -/
theorem triples_wa (cfg : Config) (ov : Overrides)
    (hb : ∀ z ∈ zonesL, (cfg.building.filter (fun b => b.zone = z)).length = 1)
    (hc : ∀ z ∈ zonesL, ∃ c ∈ cfg.counties, c.zone = z) :
    (waScenRows cfg ov).map
      (fun r : WAScenRow => (r.fuel, r.zone, r.hp_technology)) = base12 := by
  unfold waScenRows
  rw [flatMap_map_singleton _ _
    (fun r : SavingsRow => (r.fuel, r.zone, r.hp_technology)) _ ?_]
  · exact triples_savings cfg ov hb hc
  · intro r hr
    have hmem : (r.fuel, r.zone, r.hp_technology) ∈ base12 := by
      rw [← triples_savings cfg ov hb hc]
      exact List.mem_map_of_mem _ hr
    have hfm : r.fuel ∈ fuelsL := by
      have : ∀ x ∈ base12, x.1 ∈ fuelsL := by decide
      exact this _ hmem
    have hzm : r.zone ∈ zonesL := by
      have : ∀ x ∈ base12, x.2.1 ∈ zonesL := by decide
      exact this _ hmem
    obtain ⟨w0, hw0⟩ := List.length_eq_one.mp
      (survey_filter_one cfg.survey r.fuel r.zone hfm hzm)
    rw [hw0, List.flatMap_cons, List.flatMap_nil, List.append_nil, List.map_map]
    exact map_const_of_length_one
      (zone_shares_filter_one cfg r.zone (hc r.zone hzm))
      (r.fuel, r.zone, r.hp_technology)

theorem filtered_comp {R T U : Type} (rows : List R) (proj : R → T)
    (pb : T → Bool) (qb : T → U) :
    (rows.filter (fun r => pb (proj r))).map (fun r => qb (proj r)) =
      ((rows.map proj).filter pb).map qb := by
  rw [List.filter_map, List.map_map]
  rfl

theorem countP_base12 : ∀ f ∈ fuelsL, ∀ z ∈ zonesL, ∀ t ∈ techsL,
    base12.countP (fun x => x.1 = f ∧ x.2.1 = z ∧ x.2.2 = t) = 1 := by decide

theorem filter_triple_length {R : Type} (rows : List R)
    (fuelOf zoneOf techOf : R → String)
    (hmap : rows.map (fun r => (fuelOf r, zoneOf r, techOf r)) = base12)
    (f z t : String) (hf : f ∈ fuelsL) (hz : z ∈ zonesL) (ht : t ∈ techsL) :
    (rows.filter (fun r => fuelOf r = f ∧ zoneOf r = z ∧ techOf r = t)).length = 1 := by
  rw [← List.countP_eq_length_filter]
  have h1 : rows.countP (fun r => fuelOf r = f ∧ zoneOf r = z ∧ techOf r = t) =
      (rows.map (fun r => (fuelOf r, zoneOf r, techOf r))).countP
        (fun x => x.1 = f ∧ x.2.1 = z ∧ x.2.2 = t) := by
    rw [List.countP_map]
    rfl
  rw [h1, hmap]
  exact countP_base12 f hf z hz t ht

theorem wa_fuel_keys (cfg : Config) (ov : Overrides) (t : String) (ht : t ∈ techsL)
    (hmap : (waScenRows cfg ov).map
      (fun r : WAScenRow => (r.fuel, r.zone, r.hp_technology)) = base12) :
    (distinctKeys (((waScenRows cfg ov).filter
      (fun r => r.hp_technology = t)).map (fun r => r.fuel))).length = 2 := by
  have h1 : ((waScenRows cfg ov).filter (fun r => r.hp_technology = t)).map
      (fun r => r.fuel) =
      ((base12.filter (fun x => x.2.2 = t)).map (fun x => x.1)) := by
    have h2 := filtered_comp (waScenRows cfg ov)
      (fun r : WAScenRow => (r.fuel, r.zone, r.hp_technology))
      (fun x => x.2.2 = t) (fun x => x.1)
    rw [hmap] at h2
    exact h2
  rw [h1]
  fin_cases ht <;> decide

theorem wa_zone_keys (cfg : Config) (ov : Overrides) (t : String) (ht : t ∈ techsL)
    (hmap : (waScenRows cfg ov).map
      (fun r : WAScenRow => (r.fuel, r.zone, r.hp_technology)) = base12) :
    (distinctKeys (((waScenRows cfg ov).filter
      (fun r => r.hp_technology = t)).map (fun r => r.zone))).length = 3 := by
  have h1 : ((waScenRows cfg ov).filter (fun r => r.hp_technology = t)).map
      (fun r => r.zone) =
      ((base12.filter (fun x => x.2.2 = t)).map (fun x => x.2.1)) := by
    have h2 := filtered_comp (waScenRows cfg ov)
      (fun r : WAScenRow => (r.fuel, r.zone, r.hp_technology))
      (fun x => x.2.2 = t) (fun x => x.2.1)
    rw [hmap] at h2
    exact h2
  rw [h1]
  fin_cases ht <;> decide

theorem agg_block_tech_count (t t2 : String) (td : List WAScenRow) :
    (((fuelAgg t td ++ zoneAgg t td) ++ [overallAgg t td]).filter
      (fun a => a.hp_technology = t2)).length =
    if t = t2 then
      (distinctKeys (td.map (fun r => r.fuel))).length +
        (distinctKeys (td.map (fun r => r.zone))).length + 1
    else 0 := by
  rw [List.filter_append, List.filter_append, List.length_append, List.length_append]
  unfold fuelAgg zoneAgg overallAgg
  rw [List.filter_map, List.filter_map]
  by_cases h : t = t2
  · simp [h, Function.comp_def, List.filter_cons]
  · simp [h, Function.comp_def, List.filter_cons]

theorem wa_split_left (cfg : Config) (ov : Overrides) :
    (compute_weighted_averages cfg ov).filterMap Sum.getLeft? = waScenRows cfg ov := by
  unfold compute_weighted_averages
  simp [List.filterMap_append, List.filterMap_map, Function.comp_def]

theorem wa_split_right (cfg : Config) (ov : Overrides) :
    (compute_weighted_averages cfg ov).filterMap Sum.getRight? =
      techsL.flatMap (fun t =>
        (fuelAgg t ((waScenRows cfg ov).filter (fun r => r.hp_technology = t)) ++
         zoneAgg t ((waScenRows cfg ov).filter (fun r => r.hp_technology = t))) ++
        [overallAgg t ((waScenRows cfg ov).filter (fun r => r.hp_technology = t))]) := by
  unfold compute_weighted_averages
  simp [List.filterMap_append, List.filterMap_map, Function.comp_def]

/-- C3: every stage from build_scenario_table through compute_savings has
exactly 12 rows, one per (fuel, zone, technology) triple, and the aggregation
output consists of those 12 scenario rows plus 6 aggregate rows per
technology (12 aggregate rows in total). -/
theorem c3_row_count_invariant (cfg : Config) (ov : Overrides)
    (hb : ∀ z ∈ zonesL, (cfg.building.filter (fun b => b.zone = z)).length = 1)
    (hc : ∀ z ∈ zonesL, ∃ c ∈ cfg.counties, c.zone = z)
    (hov : ∀ e ∈ ov, ∀ p ∈ e.2, p.1 ≠ "fuel" ∧ p.1 ≠ "zone" ∧ p.1 ≠ "hp_technology") :
    (build_scenario_table cfg ov).length = 12 ∧
    (compute_building_geometry cfg ov).length = 12 ∧
    (compute_heat_loss_rates cfg ov).length = 12 ∧
    (compute_yearly_btu cfg ov).length = 12 ∧
    (compute_system_sizing cfg ov).length = 12 ∧
    (compute_baseline_costs cfg ov).length = 12 ∧
    (compute_heat_pump_costs cfg ov).length = 12 ∧
    (compute_savings cfg ov).length = 12 ∧
    (∀ f ∈ fuelsL, ∀ z ∈ zonesL, ∀ t ∈ techsL,
      ((build_scenario_table cfg ov).filter
        (fun r => r.fuel = f ∧ r.zone = z ∧ r.hp_technology = t)).length = 1 ∧
      ((compute_building_geometry cfg ov).filter
        (fun r => r.fuel = f ∧ r.zone = z ∧ r.hp_technology = t)).length = 1 ∧
      ((compute_heat_loss_rates cfg ov).filter
        (fun r => r.fuel = f ∧ r.zone = z ∧ r.hp_technology = t)).length = 1 ∧
      ((compute_yearly_btu cfg ov).filter
        (fun r => r.fuel = f ∧ r.zone = z ∧ r.hp_technology = t)).length = 1 ∧
      ((compute_system_sizing cfg ov).filter
        (fun r => r.fuel = f ∧ r.zone = z ∧ r.hp_technology = t)).length = 1 ∧
      ((compute_baseline_costs cfg ov).filter
        (fun r => r.fuel = f ∧ r.zone = z ∧ r.hp_technology = t)).length = 1 ∧
      ((compute_heat_pump_costs cfg ov).filter
        (fun r => r.fuel = f ∧ r.zone = z ∧ r.hp_technology = t)).length = 1 ∧
      ((compute_savings cfg ov).filter
        (fun r => r.fuel = f ∧ r.zone = z ∧ r.hp_technology = t)).length = 1) ∧
    ((compute_weighted_averages cfg ov).filterMap Sum.getLeft?).length = 12 ∧
    ((compute_weighted_averages cfg ov).filterMap Sum.getRight?).length = 12 ∧
    (∀ t ∈ techsL,
      (((compute_weighted_averages cfg ov).filterMap Sum.getRight?).filter
        (fun a => a.hp_technology = t)).length = 6) := by
  have len12 : ∀ {R : Type} (rows : List R) (proj : R → String × String × String),
      rows.map proj = base12 → rows.length = 12 := by
    intro R rows proj hmap
    have h1 := congrArg List.length hmap
    rw [List.length_map] at h1
    exact h1
  have hwamap := triples_wa cfg ov hb hc
  refine ⟨len12 _ _ (triples_scen cfg ov hb),
    len12 _ _ (triples_geom cfg ov hb),
    len12 _ _ (triples_heat_loss cfg ov hb),
    len12 _ _ (triples_btu cfg ov hb),
    len12 _ _ (triples_sizing cfg ov hb hc),
    len12 _ _ (triples_baseline cfg ov hb hc),
    len12 _ _ (triples_hp cfg ov hb hc),
    len12 _ _ (triples_savings cfg ov hb hc),
    ?_, ?_, ?_, ?_⟩
  · intro f hf z hz t ht
    exact ⟨filter_triple_length _ _ _ _ (triples_scen cfg ov hb) f z t hf hz ht,
      filter_triple_length _ _ _ _ (triples_geom cfg ov hb) f z t hf hz ht,
      filter_triple_length _ _ _ _ (triples_heat_loss cfg ov hb) f z t hf hz ht,
      filter_triple_length _ _ _ _ (triples_btu cfg ov hb) f z t hf hz ht,
      filter_triple_length _ _ _ _ (triples_sizing cfg ov hb hc) f z t hf hz ht,
      filter_triple_length _ _ _ _ (triples_baseline cfg ov hb hc) f z t hf hz ht,
      filter_triple_length _ _ _ _ (triples_hp cfg ov hb hc) f z t hf hz ht,
      filter_triple_length _ _ _ _ (triples_savings cfg ov hb hc) f z t hf hz ht⟩
  · rw [wa_split_left]
    exact len12 _ _ hwamap
  · rw [wa_split_right]
    simp only [techsL, List.flatMap_cons, List.flatMap_nil, List.append_nil,
      List.length_append]
    have hfl : ∀ (t : String) (td : List WAScenRow), (fuelAgg t td).length =
        (distinctKeys (td.map (fun r => r.fuel))).length :=
      fun t td => List.length_map _ _
    have hzl : ∀ (t : String) (td : List WAScenRow), (zoneAgg t td).length =
        (distinctKeys (td.map (fun r => r.zone))).length :=
      fun t td => List.length_map _ _
    simp only [hfl, hzl, List.length_singleton]
    rw [wa_fuel_keys cfg ov "ccASHP" (by decide) hwamap,
      wa_fuel_keys cfg ov "GSHP" (by decide) hwamap,
      wa_zone_keys cfg ov "ccASHP" (by decide) hwamap,
      wa_zone_keys cfg ov "GSHP" (by decide) hwamap]
  · intro t ht
    rw [wa_split_right]
    simp only [techsL, List.flatMap_cons, List.flatMap_nil, List.append_nil]
    have hsplit : ∀ (p : AggRow → Bool) (l1 l2 : List AggRow),
        ((l1 ++ l2).filter p).length = (l1.filter p).length + (l2.filter p).length := by
      intro p l1 l2
      rw [List.filter_append, List.length_append]
    rw [hsplit]
    rw [agg_block_tech_count "ccASHP" t _, agg_block_tech_count "GSHP" t _]
    fin_cases ht
    · rw [if_pos rfl, if_neg (by decide)]
      rw [wa_fuel_keys cfg ov "ccASHP" (by decide) hwamap,
        wa_zone_keys cfg ov "ccASHP" (by decide) hwamap]
    · rw [if_neg (by decide), if_pos rfl]
      rw [wa_fuel_keys cfg ov "GSHP" (by decide) hwamap,
        wa_zone_keys cfg ov "GSHP" (by decide) hwamap]

/-- C3 witness: the witness configuration meets the well-formedness
hypotheses and yields the stated row counts. -/
theorem c3_witness :
    (∀ z ∈ zonesL, (cfgW.building.filter (fun b => b.zone = z)).length = 1) ∧
    (∀ z ∈ zonesL, ∃ c ∈ cfgW.counties, c.zone = z) ∧
    (build_scenario_table cfgW []).length = 12 ∧
    (compute_savings cfgW []).length = 12 ∧
    ((compute_weighted_averages cfgW []).filterMap Sum.getLeft?).length = 12 ∧
    ((compute_weighted_averages cfgW []).filterMap Sum.getRight?).length = 12 := by
  have hb : ∀ z ∈ zonesL, (cfgW.building.filter (fun b => b.zone = z)).length = 1 := by
    decide
  have hc : ∀ z ∈ zonesL, ∃ c ∈ cfgW.counties, c.zone = z := by decide
  have hov : ∀ e ∈ ([] : Overrides), ∀ p ∈ e.2,
      p.1 ≠ "fuel" ∧ p.1 ≠ "zone" ∧ p.1 ≠ "hp_technology" := by simp
  obtain ⟨h1, _, _, _, _, _, _, h8, _, h10, h11, _⟩ :=
    c3_row_count_invariant cfgW [] hb hc hov
  exact ⟨hb, hc, h1, h8, h10, h11⟩

theorem wa_fuel_keys_list (cfg : Config) (ov : Overrides) (t : String) (ht : t ∈ techsL)
    (hmap : (waScenRows cfg ov).map
      (fun r : WAScenRow => (r.fuel, r.zone, r.hp_technology)) = base12) :
    distinctKeys (((waScenRows cfg ov).filter
      (fun r => r.hp_technology = t)).map (fun r => r.fuel)) =
      ["natural_gas", "propane"] := by
  have h1 : ((waScenRows cfg ov).filter (fun r => r.hp_technology = t)).map
      (fun r => r.fuel) =
      ((base12.filter (fun x => x.2.2 = t)).map (fun x => x.1)) := by
    have h2 := filtered_comp (waScenRows cfg ov)
      (fun r : WAScenRow => (r.fuel, r.zone, r.hp_technology))
      (fun x => x.2.2 = t) (fun x => x.1)
    rw [hmap] at h2
    exact h2
  rw [h1]
  fin_cases ht <;> decide

theorem wa_zone_keys_list (cfg : Config) (ov : Overrides) (t : String) (ht : t ∈ techsL)
    (hmap : (waScenRows cfg ov).map
      (fun r : WAScenRow => (r.fuel, r.zone, r.hp_technology)) = base12) :
    distinctKeys (((waScenRows cfg ov).filter
      (fun r => r.hp_technology = t)).map (fun r => r.zone)) = ["4", "5", "6"] := by
  have h1 : ((waScenRows cfg ov).filter (fun r => r.hp_technology = t)).map
      (fun r => r.zone) =
      ((base12.filter (fun x => x.2.2 = t)).map (fun x => x.2.1)) := by
    have h2 := filtered_comp (waScenRows cfg ov)
      (fun r : WAScenRow => (r.fuel, r.zone, r.hp_technology))
      (fun x => x.2.2 = t) (fun x => x.2.1)
    rw [hmap] at h2
    exact h2
  rw [h1]
  fin_cases ht <;> decide

theorem agg_overall_filter (t t2 : String) (td : List WAScenRow)
    (hf : distinctKeys (td.map (fun r => r.fuel)) = ["natural_gas", "propane"])
    (hz : distinctKeys (td.map (fun r => r.zone)) = ["4", "5", "6"]) :
    ((fuelAgg t td ++ zoneAgg t td) ++ [overallAgg t td]).filter
      (fun a => a.key = "overall" ∧ a.hp_technology = t2) =
      if t = t2 then [overallAgg t td] else [] := by
  unfold fuelAgg zoneAgg
  rw [hf, hz]
  by_cases h : t = t2
  · simp [h, overallAgg, List.filter_append]
  · simp [h, overallAgg, List.filter_append]

/-- C6: for each technology, the single 'overall' aggregate row holds the
pct_new_construction_fuel_zone-weighted average of
total_yearly_savings_with_service_line over that technology's 6 scenario rows
(sum of value times weight over sum of weights), and its present value is that
aggregated figure times the annuity factor, not an aggregate of per-scenario
present values. -/
theorem c6_overall_aggregate (cfg : Config) (ov : Overrides) (t : String)
    (ht : t ∈ techsL)
    (hb : ∀ z ∈ zonesL, (cfg.building.filter (fun b => b.zone = z)).length = 1)
    (hc : ∀ z ∈ zonesL, ∃ c ∈ cfg.counties, c.zone = z) :
    (((compute_weighted_averages cfg ov).filterMap Sum.getLeft?).filter
      (fun r => r.hp_technology = t)).length = 6 ∧
    ((compute_weighted_averages cfg ov).filterMap Sum.getRight?).filter
      (fun a => a.key = "overall" ∧ a.hp_technology = t) =
      [{ key := "overall"
         weighted_statewide_savings_by_fuel := none
         weighted_zonewide_savings := none
         weighted_statewide_savings := some
           ((((((compute_weighted_averages cfg ov).filterMap Sum.getLeft?).filter
              (fun r => r.hp_technology = t)).map (fun r =>
                r.total_yearly_savings_with_service_line *
                  r.pct_new_construction_fuel_zone)).sum) /
            (((((compute_weighted_averages cfg ov).filterMap Sum.getLeft?).filter
              (fun r => r.hp_technology = t)).map
                (fun r => r.pct_new_construction_fuel_zone)).sum))
         weighted_statewide_pv := some
           ((((((compute_weighted_averages cfg ov).filterMap Sum.getLeft?).filter
              (fun r => r.hp_technology = t)).map (fun r =>
                r.total_yearly_savings_with_service_line *
                  r.pct_new_construction_fuel_zone)).sum) /
            (((((compute_weighted_averages cfg ov).filterMap Sum.getLeft?).filter
              (fun r => r.hp_technology = t)).map
                (fun r => r.pct_new_construction_fuel_zone)).sum) *
            annuityFactor
              ((((compute_weighted_averages cfg ov).filterMap Sum.getLeft?).filter
                (fun r => r.hp_technology = t)).headI.discount_rate)
              ((((compute_weighted_averages cfg ov).filterMap Sum.getLeft?).filter
                (fun r => r.hp_technology = t)).headI.analysis_period_years))
         hp_technology := t }] := by
  have hwamap := triples_wa cfg ov hb hc
  constructor
  · rw [wa_split_left]
    have h2 := filtered_comp (waScenRows cfg ov)
      (fun r : WAScenRow => (r.fuel, r.zone, r.hp_technology))
      (fun x => x.2.2 = t) (fun x => x)
    rw [hwamap] at h2
    have h3 : (((waScenRows cfg ov).filter (fun r => r.hp_technology = t)).map
        (fun r : WAScenRow => (r.fuel, r.zone, r.hp_technology))).length =
        ((base12.filter (fun x => x.2.2 = t)).map (fun x => x)).length := by
      rw [h2]
    rw [List.length_map, List.length_map] at h3
    rw [h3]
    fin_cases ht <;> decide
  · rw [wa_split_left, wa_split_right]
    simp only [techsL, List.flatMap_cons, List.flatMap_nil, List.append_nil]
    rw [List.filter_append]
    rw [agg_overall_filter "ccASHP" t _
        (wa_fuel_keys_list cfg ov "ccASHP" (by decide) hwamap)
        (wa_zone_keys_list cfg ov "ccASHP" (by decide) hwamap),
      agg_overall_filter "GSHP" t _
        (wa_fuel_keys_list cfg ov "GSHP" (by decide) hwamap)
        (wa_zone_keys_list cfg ov "GSHP" (by decide) hwamap)]
    fin_cases ht
    · rw [if_pos rfl, if_neg (by decide)]
      rfl
    · rw [if_neg (by decide), if_pos rfl]
      rfl

/-- C6 witness: the overall aggregate row equations at the witness
configuration for the ccASHP technology. -/
theorem c6_witness :
    "ccASHP" ∈ techsL ∧
    (∀ z ∈ zonesL, (cfgW.building.filter (fun b => b.zone = z)).length = 1) ∧
    (∀ z ∈ zonesL, ∃ c ∈ cfgW.counties, c.zone = z) ∧
    (((compute_weighted_averages cfgW []).filterMap Sum.getLeft?).filter
      (fun r => r.hp_technology = "ccASHP")).length = 6 ∧
    ((compute_weighted_averages cfgW []).filterMap Sum.getRight?).filter
      (fun a => a.key = "overall" ∧ a.hp_technology = "ccASHP") =
      [{ key := "overall"
         weighted_statewide_savings_by_fuel := none
         weighted_zonewide_savings := none
         weighted_statewide_savings := some
           ((((((compute_weighted_averages cfgW []).filterMap Sum.getLeft?).filter
              (fun r => r.hp_technology = "ccASHP")).map (fun r =>
                r.total_yearly_savings_with_service_line *
                  r.pct_new_construction_fuel_zone)).sum) /
            (((((compute_weighted_averages cfgW []).filterMap Sum.getLeft?).filter
              (fun r => r.hp_technology = "ccASHP")).map
                (fun r => r.pct_new_construction_fuel_zone)).sum))
         weighted_statewide_pv := some
           ((((((compute_weighted_averages cfgW []).filterMap Sum.getLeft?).filter
              (fun r => r.hp_technology = "ccASHP")).map (fun r =>
                r.total_yearly_savings_with_service_line *
                  r.pct_new_construction_fuel_zone)).sum) /
            (((((compute_weighted_averages cfgW []).filterMap Sum.getLeft?).filter
              (fun r => r.hp_technology = "ccASHP")).map
                (fun r => r.pct_new_construction_fuel_zone)).sum) *
            annuityFactor
              ((((compute_weighted_averages cfgW []).filterMap Sum.getLeft?).filter
                (fun r => r.hp_technology = "ccASHP")).headI.discount_rate)
              ((((compute_weighted_averages cfgW []).filterMap Sum.getLeft?).filter
                (fun r => r.hp_technology = "ccASHP")).headI.analysis_period_years))
         hp_technology := "ccASHP" }] := by
  have hb : ∀ z ∈ zonesL, (cfgW.building.filter (fun b => b.zone = z)).length = 1 := by
    decide
  have hc : ∀ z ∈ zonesL, ∃ c ∈ cfgW.counties, c.zone = z := by decide
  obtain ⟨h1, h2⟩ := c6_overall_aggregate cfgW [] "ccASHP" (by decide) hb hc
  exact ⟨by decide, hb, hc, h1, h2⟩

end

end NyAeba
